import Mathlib

/-!
Verification of the swap_file Ansible module
(plugins/modules/swap_file.py and plugins/module_utils/_misc.py).

The module reconciles an on-disk swap file with a desired state.  We give a
shallow embedding of the decision logic and the stateful reconciliation:

* pure decision code (allocation-strategy selection, size normalization,
  priority comparison) becomes pure Lean functions;
* the OS environment (files with sizes, swap signatures, the active-swap
  table, permission state) becomes an explicit `Env` record, and every
  operation of class `SwapFile` / `SwapFileModule` becomes a function from
  `Env` to `Except (String × Env) (Bool × Env)` (errors carry the state at
  the failure point, mirroring raised `RuntimeError`s);
* the outcomes of external commands (dd/fallocate/mkswap/swapon/swapoff,
  chattr, mkstemp, unlink) are supplied as explicit oracle parameters, since
  the code only observes their exit codes and the resulting file sizes.

Machine integers are modelled as `Nat`/`Int`; the Python code performs no
wrapping arithmetic in the embedded fragments.
-/

/-! ## Kernel version comparison

`swap_file.py` compares `LooseVersion(platform.release())` against literal
versions such as `LooseVersion('5')` or `LooseVersion('4.18')`.  For purely
numeric dotted versions, `LooseVersion` comparison is Python list comparison
on the lists of integer components: lexicographic, with a strict prefix
comparing as smaller. -/

/-- Python list `<` on version component lists (strict prefix is smaller). -/
def looseLt : List Nat → List Nat → Bool
  | [], [] => false
  | [], _ :: _ => true
  | _ :: _, [] => false
  | a :: as, b :: bs => if a < b then true else if b < a then false else looseLt as bs

/-- `LooseVersion` comparison `a >= b`, i.e. `not (a < b)`. -/
def looseGe (a b : List Nat) : Bool := !looseLt a b

/-! ## Allocation strategy selection (SwapFile.allocate, lines 152–212)

The allocation decision in `SwapFile.allocate` starts from the `dd`
argument template, consults the filesystem type (from
`get_path_filesystem`, which returns `None` when `/proc/mounts` is
unreadable or the mount point is not listed) and the kernel version, and
then — after the table has run — applies the explicit `create_cmd`
override if one was supplied.  A failure inside the table (btrfs with a
kernel older than 5) is raised before the override is consulted, and the
`nocow` flag chosen by the table is not reset by the override. -/

/-- The two creation commands of `args_dict` in `SwapFile.allocate`. -/
inductive AllocCmd
  | dd
  | fallocate
deriving Repr, DecidableEq

/-- Error message raised for swap files on btrfs with kernel < 5
(swap_file.py lines 190–192). -/
def btrfsKernelErr : String :=
  "Kernel version >= 5 needed for swap file support on btrfs"

/-- The command/nocow decision of `SwapFile.allocate` (lines 178–205):
start from dd, run the filesystem/kernel table (which may raise for btrfs),
then let an explicit `create_cmd` override replace the chosen command. -/
def selectCreate (fs : Option String) (kernel : List Nat)
    (create_cmd : Option AllocCmd) : Except String (AllocCmd × Bool) :=
  let base : Except String (AllocCmd × Bool) :=
    if fs = some "btrfs" then
      if looseGe kernel [5] then Except.ok (AllocCmd.fallocate, true)
      else Except.error btrfsKernelErr
    else if fs = some "xfs" then
      if looseGe kernel [4, 18] then Except.ok (AllocCmd.fallocate, false)
      else Except.ok (AllocCmd.dd, false)
    else if fs = some "ext4" then
      if looseGe kernel [5, 11] then Except.ok (AllocCmd.fallocate, false)
      else Except.ok (AllocCmd.dd, false)
    else Except.ok (AllocCmd.dd, false)
  match base with
  | Except.error e => Except.error e
  | Except.ok (cmd, nocow) =>
      Except.ok (match create_cmd with | some c => c | none => cmd, nocow)

/-- Modelled from the spec: the decision table of §4.2 / claim C2 for runs
with no explicit override — btrfs needs kernel >= 5 (else a capability
error) and selects fallocate with No_COW required; xfs from kernel 4.18 and
ext4 from kernel 5.11 select fallocate without No_COW; every other, unknown
or unreadable filesystem and every below-threshold kernel selects dd
without No_COW. -/
def specSelectNoOverride (fs : Option String) (kernel : List Nat) :
    Except String (AllocCmd × Bool) :=
  if fs = some "btrfs" then
    if looseGe kernel [5] then Except.ok (AllocCmd.fallocate, true)
    else Except.error btrfsKernelErr
  else if fs = some "xfs" then
    if looseGe kernel [4, 18] then Except.ok (AllocCmd.fallocate, false)
    else Except.ok (AllocCmd.dd, false)
  else if fs = some "ext4" then
    if looseGe kernel [5, 11] then Except.ok (AllocCmd.fallocate, false)
    else Except.ok (AllocCmd.dd, false)
  else Except.ok (AllocCmd.dd, false)

/-! ## Size normalization (SwapFileModule._desired_size, lines 482–505)

The module parses the user size string with ansible's `human_to_bytes`
(suffixes Y/Z/E/P/T/G/M/K/B are powers of 1024, a missing suffix defaults
to the module's default unit G), then rounds to the nearest MiB with
Python's `round` (banker's rounding: ties go to the even integer) and
multiplies back.  We model the integer-valued fragment of the parsing —
the claims only need whole-number sizes — and model `int(round(b / MB))`
as exact rational banker's rounding (the float round-off of the division
for astronomically large inputs is not modelled). -/

/-- Byte factor of a size-suffix letter, as in ansible's SIZE_RANGES. -/
def unitFactor : Char → Option Nat
  | 'Y' => some (1024 ^ 8)
  | 'Z' => some (1024 ^ 7)
  | 'E' => some (1024 ^ 6)
  | 'P' => some (1024 ^ 5)
  | 'T' => some (1024 ^ 4)
  | 'G' => some (1024 ^ 3)
  | 'M' => some (1024 ^ 2)
  | 'K' => some 1024
  | 'B' => some 1
  | _ => none

/-- `human_to_bytes` on an integer count with an optional suffix letter;
a missing suffix falls back to the default unit (the module passes G).
Unknown suffix letters are a parse failure (`none`). -/
def human_to_bytes_nat (num : Nat) (suffix : Option Char) (defaultUnit : Char) :
    Option Nat :=
  match suffix with
  | none => (unitFactor defaultUnit).map (fun f => num * f)
  | some c => (unitFactor c.toUpper).map (fun f => num * f)

/-- Python `int(round(b / m))` for natural `b`, `m > 0`: round to nearest,
ties to even. -/
def pyRoundDiv (b m : Nat) : Nat :=
  let q := b / m
  let r := b % m
  if 2 * r < m then q
  else if m < 2 * r then q + 1
  else if q % 2 = 0 then q else q + 1

/-- The normalization step of the `_desired_size` setter (lines 498–501):
`size_in_mib = int(round(size_in_bytes / MB)); size_in_bytes = size_in_mib * MB`.
Returns `(size_in_mib, size_in_bytes)`. -/
def desiredSizeNorm (size_in_bytes : Nat) : Nat × Nat :=
  let MB := 1024 * 1024
  let size_in_mib := pyRoundDiv size_in_bytes MB
  (size_in_mib, size_in_mib * MB)

/-- C2: with no explicit create-command override, the allocation decision of
`SwapFile.allocate` follows the spec's table for every filesystem type and
kernel version: btrfs with kernel >= 5 gives fallocate with No_COW required,
btrfs with kernel < 5 fails with the capability error, xfs from kernel 4.18
and ext4 from kernel 5.11 give fallocate without No_COW, and every other,
unknown or unreadable filesystem type and every below-threshold kernel gives
dd without No_COW. -/
theorem c2_select_follows_spec_table (fs : Option String) (kernel : List Nat) :
    selectCreate fs kernel none = specSelectNoOverride fs kernel := by
  unfold selectCreate specSelectNoOverride
  split_ifs <;> rfl

/-- C3 counterexample: an explicit override of dd does not skip the decision
table.  On btrfs with kernel 4.9.0 the capability error is still raised even
with `create_cmd = dd`, and on btrfs with kernel 5.1.0 the override still
leaves the No_COW step required. -/
theorem c3_override_counterexample :
    selectCreate (some "btrfs") [4, 9, 0] (some AllocCmd.dd) =
      Except.error btrfsKernelErr ∧
    selectCreate (some "btrfs") [5, 1, 0] (some AllocCmd.dd) =
      Except.ok (AllocCmd.dd, true) := by
  exact ⟨rfl, rfl⟩

/-- C3 (amended): an explicit create-command override replaces only the
command chosen by the decision table, which still runs first: the btrfs
kernel-capability error is still raised with an override present, and the
No_COW requirement computed by the table is kept unchanged. -/
theorem c3_override_replaces_command_only
    (fs : Option String) (kernel : List Nat) (c : AllocCmd) :
    selectCreate fs kernel (some c) =
      Except.map (fun q => (c, q.2)) (selectCreate fs kernel none) := by
  unfold selectCreate
  split_ifs <;> rfl

/-- C7 counterexample: the size string 100K is accepted when state is
present (it parses to 102400 bytes), but its normalized byte count is 0 —
not strictly greater than 0. -/
theorem c7_positive_counterexample :
    human_to_bytes_nat 100 (some 'K') 'G' = some 102400 ∧
    desiredSizeNorm 102400 = (0, 0) := by
  exact ⟨rfl, rfl⟩

/-- C7 (amended): the normalized byte count is always an exact multiple of
1 MiB, obtained by rounding the parsed byte count to the nearest MiB
(Python banker's rounding), but it is not guaranteed strictly positive:
it is positive exactly when the parsed size exceeds half a MiB. -/
theorem c7_size_normalization (b : Nat) :
    (desiredSizeNorm b).2 % (1024 * 1024) = 0 ∧
    (desiredSizeNorm b).1 = pyRoundDiv b (1024 * 1024) ∧
    (0 < (desiredSizeNorm b).2 ↔ 1024 * 1024 < 2 * b) := by
  refine ⟨?_, rfl, ?_⟩
  · simp [desiredSizeNorm, Nat.mul_mod_left]
  · simp only [desiredSizeNorm, pyRoundDiv]
    split_ifs <;> omega

/-! ## The OS environment

The stateful operations of `SwapFile` observe and mutate: the regular files
on disk (path and byte size — `os.path.exists`, `os.path.getsize`), the set
of files carrying a swap signature (`blkid -s TYPE` printing swap), the
table of active swap areas with their priorities (`swapon --show=NAME,PRIO`),
and the ownership/mode/label state consulted by
`set_fs_attributes_if_different`.  `sysPrio` is the (negative) priority the
kernel assigns when `swapon -p` is invoked with a negative requested
priority (the module documentation: a priority of -1 lets the system pick
some priority < 0).  `dirOk` abstracts the `os.path.isdir` check on the
parent directory of the target path. -/

structure Env where
  files : List (String × Nat)
  formatted : List String
  swaps : List (String × Int)
  permsOk : List String
  sysPrio : Int
  dirOk : Bool
deriving Repr, DecidableEq

/-- First-match association lookup for the on-disk file table. -/
def lookupF : List (String × Nat) → String → Option Nat
  | [], _ => none
  | q :: rest, p => if q.1 = p then some q.2 else lookupF rest p

/-- Lookup in the parsed `swapon --show` output.  The loop in
`get_status` (lines 291–297) overwrites the status on every matching line,
so the last matching line wins. -/
def swapLookup : List (String × Int) → String → Option Int
  | [], _ => none
  | q :: rest, p =>
      match swapLookup rest p with
      | some v => some v
      | none => if q.1 = p then some q.2 else none

/-- Membership test for the formatted/permsOk path lists. -/
def containsS : List String → String → Bool
  | [], _ => false
  | q :: rest, p => if q = p then true else containsS rest p

/-- `os.path.exists` on the modelled file table. -/
def fexists (env : Env) (p : String) : Bool := (lookupF env.files p).isSome

/-- Writing a file of `sz` bytes at `p` (dd/fallocate output, or the empty
file `mkstemp` creates): overwrites the existing entry or creates one. -/
def setFileSize (env : Env) (p : String) (sz : Nat) : Env :=
  if fexists env p then
    { env with files := env.files.map (fun q => if q.1 = p then (p, sz) else q) }
  else
    { env with files := (p, sz) :: env.files }

/-- Unlinking `p` from the file table. -/
def eraseFile (env : Env) (p : String) : Env :=
  { env with files := env.files.filter (fun q => !(q.1 = p)) }

/-- `AnsibleModule.cleanup` of a registered temp file: remove it only if it
still exists (run by both `fail_json` and `exit_json`). -/
def cleanupFile (env : Env) (p : String) : Env :=
  if fexists env p then eraseFile env p else env

/-- Removing `p` from the active-swap table (the effect of `swapoff`). -/
def swapsErase (env : Env) (p : String) : Env :=
  { env with swaps := env.swaps.filter (fun q => !(q.1 = p)) }

/-- The effect of `swapon -p r path`: the swap table gains the path, at the
requested priority when it is >= 0, and at the system-chosen priority
otherwise. -/
def activateAt (env : Env) (p : String) (r : Int) : Env :=
  { env with swaps := env.swaps ++ [(p, if 0 ≤ r then r else env.sysPrio)] }

/-! ### Status queries (SwapFile.get_status, lines 237–299)

Every query first checks `os.path.exists` and falls back to the default
status (False/None) when the file is missing. -/

/-- `get_status('size')`: `None` when the file is missing, else its size. -/
def statusSize (env : Env) (p : String) : Option Nat := lookupF env.files p

/-- `get_status('is_formatted')`: blkid reports TYPE swap. -/
def statusIsFormatted (env : Env) (p : String) : Bool :=
  fexists env p && containsS env.formatted p

/-- `get_status('is_on')`: the path appears in the `swapon --show` table. -/
def statusIsOn (env : Env) (p : String) : Bool :=
  fexists env p && (swapLookup env.swaps p).isSome

/-- `get_status('priority')` as consumed by `swap_on` after `int(...)`:
the PRIO column of the matching `swapon --show` line. -/
def statusPriorityInt (env : Env) (p : String) : Option Int :=
  if fexists env p then swapLookup env.swaps p else none

/-- `get_status('priority')` as returned to the caller in the result dict:
the raw PRIO token, a string (swap_file.py line 297 stores the
`swapon --show` column without converting it to an int). -/
def statusPriorityRaw (env : Env) (p : String) : Option String :=
  (statusPriorityInt env p).map (fun i => toString i)

/-! ### Mutating operations of SwapFile

Each operation takes the check-mode flag and the outcome of the external
command it would run (`true` = exit code 0) and returns
`Except (String × Env) (Bool × Env)`: a raised error message together with
the environment at the failure point, or the changed flag and the new
environment. -/

/-- Error messages of the modelled operations (taken from the source). -/
def sizeErrMsg : String :=
  "Size of temp swap file is not correct. You must have <swap file size> of free space"

/-- Error raised when `chattr +C` fails (line 212). -/
def noCowErrMsg : String := "Unable to set No_COW attribute on swap file"

/-- Error raised when `swapoff` fails (lines 402–405), stderr elided. -/
def swapoffErrMsg : String :=
  "Could not deactivate swap file. Was it mounted over? Is the path to it accessible?"

/-- `SwapFile.allocate` (lines 152–234): choose the creation command from
the filesystem/kernel table and the optional override, run `chattr +C` when
No_COW is required, run the creation command (which leaves a file of
`createdSize` bytes at the path), and on exit code 0 check the on-disk size
against `human_to_bytes('%sM' % size_in_mib)` = `size_in_mib` MiB exactly,
raising the capacity error on mismatch. -/
def allocate (env : Env) (p : String) (size_in_mib : Nat) (fs : Option String)
    (kernel : List Nat) (create_cmd : Option AllocCmd)
    (chattrOk createOk : Bool) (createdSize : Nat) (createErr : String) :
    Except (String × Env) Env :=
  match selectCreate fs kernel create_cmd with
  | Except.error e => Except.error (e, env)
  | Except.ok (_cmd, nocow) =>
    if nocow && !chattrOk then Except.error (noCowErrMsg, env)
    else
      let env1 := setFileSize env p createdSize
      if createOk then
        if createdSize = size_in_mib * (1024 * 1024) then Except.ok env1
        else Except.error (sizeErrMsg, env1)
      else Except.error (createErr, env1)

/-- `SwapFile.mkswap` (lines 302–318): format unless already formatted; in
check mode the exit code is assumed 0 and nothing is written. -/
def mkswap (cm cmdOk : Bool) (env : Env) (p : String) :
    Except (String × Env) (Bool × Env) :=
  if !(statusIsFormatted env p) then
    if cm then Except.ok (true, env)
    else if cmdOk then Except.ok (true, { env with formatted := p :: env.formatted })
    else Except.error ("mkswap failed", env)
  else Except.ok (false, env)

/-- `SwapFile.swap_off` (lines 389–407): deactivate if active; in check
mode the exit code is assumed 0 and nothing changes. -/
def swap_off (cm cmdOk : Bool) (env : Env) (p : String) :
    Except (String × Env) (Bool × Env) :=
  if statusIsOn env p then
    if cm then Except.ok (true, env)
    else if cmdOk then Except.ok (true, swapsErase env p)
    else Except.error (swapoffErrMsg, env)
  else Except.ok (false, env)

/-- The reactivation condition of `SwapFile.swap_on` (lines 367–369):
not active, or current priority unknown, or the requested and current
priorities differ with at least one of them >= 0. -/
def swapOnCond (env : Env) (p : String) (requested : Int) : Bool :=
  !(statusIsOn env p) || (statusPriorityInt env p).isNone ||
    (match statusPriorityInt env p with
     | some c => decide (¬requested = c) && (decide (0 ≤ requested) || decide (0 ≤ c))
     | none => true)

/-- `SwapFile.swap_on` (lines 356–387): when the reactivation condition
holds, first `swap_off` if currently active, then run
`swapon -p requested path` (skipped in check mode); otherwise a no-op. -/
def swap_on (cm offOk onOk : Bool) (env : Env) (p : String) (requested : Int) :
    Except (String × Env) (Bool × Env) :=
  if swapOnCond env p requested then
    match (if statusIsOn env p then swap_off cm offOk env p
           else Except.ok (false, env)) with
    | Except.error e => Except.error e
    | Except.ok (_, env1) =>
        if cm then Except.ok (true, env1)
        else if onOk then Except.ok (true, activateAt env1 p requested)
        else Except.error ("swapon failed", env1)
  else Except.ok (false, env)

/-- `SwapFile.set_perms` (lines 341–353): delegate to the attribute
synchronizer, which reports whether ownership/mode/label differed and, in
check mode, reports without applying. -/
def set_perms (cm : Bool) (env : Env) (p : String) : Bool × Env :=
  if containsS env.permsOk p then (false, env)
  else (true, if cm then env else { env with permsOk := p :: env.permsOk })

/-- `SwapFile.remove` (lines 321–338): no-op if the file does not exist;
otherwise unlink it (skipped in check mode), treating an ENOENT failure —
the file vanished between the existence check and the unlink — as success.
`unlinkErrno` is the errno of a failing `os.unlink`, `none` on success;
ENOENT is errno 2. -/
def remove (cm : Bool) (unlinkErrno : Option Nat) (env : Env) (p : String) :
    Except (String × Env) (Bool × Env) :=
  if fexists env p then
    if !cm then
      match unlinkErrno with
      | none => Except.ok (true, eraseFile env p)
      | some e =>
          if e = 2 then Except.ok (true, eraseFile env p)
          else Except.error ("unlink failed", env)
    else Except.ok (true, env)
  else Except.ok (false, env)

/-! ## The reconciler (SwapFileModule, lines 410–627)

`run()` dispatches on the desired state, then builds the result dict
`{changed, path, size, priority}` from fresh status queries and calls
`exit_json` (which removes registered-but-still-existing temp files), while
`_fail` calls `fail_json` (which does the same cleanup).  `_present` stages
a temporary file (`tempfile.mkstemp` in the target directory), registers it
for cleanup, validates it via allocate → mkswap → swap_on → swap_off,
deactivates the old final-path file, atomically renames the staged file
onto the final path, and finally re-applies mkswap / set_perms / swap_on on
the final path. -/

/-- Desired state and fixed environment facts of one `present` run. -/
structure Params where
  path : String
  tmpPath : String
  sizeInMib : Nat
  priority : Int
  fs : Option String
  kernel : List Nat
  createCmd : Option AllocCmd
  checkMode : Bool
deriving Repr, DecidableEq

/-- `_desired_size_in_bytes` for a validated size:
`size_in_bytes = size_in_mib * MB` (line 501). -/
def desiredBytes (pr : Params) : Nat := pr.sizeInMib * (1024 * 1024)

/-- Exit codes / effects of the external commands a `present` run may
issue.  `createdSize` is the size of the file the creation command leaves
behind (equal to the requested size on a healthy system, short or zero
when space runs out). -/
structure CmdOutcomes where
  mkstempOk : Bool
  chattrOk : Bool
  createOk : Bool
  createdSize : Nat
  createErr : String
  tmpMkswapOk : Bool
  tmpSwaponOk : Bool
  tmpSwapoffOk : Bool
  finalSwapoffOk : Bool
  finalMkswapOk : Bool
  finalSwaponOk : Bool
deriving Repr, DecidableEq

/-- The result dict of `run()` (lines 621–626).  `priority` is the raw
string token taken from the `swapon --show` output. -/
structure RunResult where
  changed : Bool
  path : String
  size : Option Nat
  priority : Option String
deriving Repr, DecidableEq

/-- Final outcome of a module run: `exit_json` with a result, or
`fail_json` with a message; both carry the final environment (after the
registered-temp-file cleanup both of them perform). -/
inductive Outcome
  | ok (res : RunResult) (env : Env)
  | failed (msg : String) (env : Env)
deriving Repr, DecidableEq

/-- Remove the registered staged file if registration happened. -/
def doCleanup (reg : Bool) (env : Env) (p : String) : Env :=
  if reg then cleanupFile env p else env

/-- The staged-file validation pipeline of `_present` (lines 564–573):
allocate, format, activate at the desired priority, deactivate — all on
the temporary path. -/
def stagedValidate (pr : Params) (oc : CmdOutcomes) (env : Env) :
    Except (String × Env) Env :=
  match allocate env pr.tmpPath pr.sizeInMib pr.fs pr.kernel pr.createCmd
      oc.chattrOk oc.createOk oc.createdSize oc.createErr with
  | Except.error e => Except.error e
  | Except.ok env1 =>
    match mkswap false oc.tmpMkswapOk env1 pr.tmpPath with
    | Except.error e => Except.error e
    | Except.ok (_, env2) =>
      match swap_on false oc.tmpSwapoffOk oc.tmpSwaponOk env2 pr.tmpPath
          pr.priority with
      | Except.error e => Except.error e
      | Except.ok (_, env3) =>
        match swap_off false oc.tmpSwapoffOk env3 pr.tmpPath with
        | Except.error e => Except.error e
        | Except.ok (_, env4) => Except.ok env4

/-- `AnsibleModule.atomic_move(src, dst)`: same-directory rename.  The
file (with its size, swap signature and permission state) disappears from
the source path and replaces whatever was at the destination. -/
def atomicMove (env : Env) (src dst : String) : Env :=
  match lookupF env.files src with
  | none => env
  | some sz =>
      { files := env.files.filter (fun q => !(q.1 = src) && !(q.1 = dst)) ++ [(dst, sz)]
        formatted := env.formatted.filter (fun q => !(q = src) && !(q = dst)) ++
          (if containsS env.formatted src then [dst] else [])
        swaps := env.swaps
        permsOk := env.permsOk.filter (fun q => !(q = src) && !(q = dst)) ++
          (if containsS env.permsOk src then [dst] else [])
        sysPrio := env.sysPrio
        dirOk := env.dirOk }

/-- The tail of `_present` (lines 584–589) plus the result building of
`run()`: re-apply mkswap, set_perms and swap_on on the final path,
accumulate the changed flag, and report.  `reg` records whether a staged
temp file was registered for cleanup. -/
def presentTail (pr : Params) (oc : CmdOutcomes) (changed0 : Bool) (env : Env)
    (reg : Bool) : Outcome :=
  match mkswap pr.checkMode oc.finalMkswapOk env pr.path with
  | Except.error e => Outcome.failed e.1 (doCleanup reg e.2 pr.tmpPath)
  | Except.ok (c1, env1) =>
    match set_perms pr.checkMode env1 pr.path with
    | (c2, env2) =>
      match swap_on pr.checkMode oc.finalSwapoffOk oc.finalSwaponOk env2 pr.path
          pr.priority with
      | Except.error e => Outcome.failed e.1 (doCleanup reg e.2 pr.tmpPath)
      | Except.ok (c3, env3) =>
          Outcome.ok
            { changed := ((changed0 || c1) || c2) || c3
              path := pr.path
              size := statusSize env3 pr.path
              priority := statusPriorityRaw env3 pr.path }
            (doCleanup reg env3 pr.tmpPath)

/-- `SwapFileModule._present` (lines 538–589) together with the reporting
of `run()`: fail if the target directory is missing; if the file is absent
or its size differs from the desired size, stage, validate, deactivate the
old file and atomically move (all skipped in check mode) and mark changed;
then idempotently re-apply format/permissions/activation. -/
def present (pr : Params) (oc : CmdOutcomes) (env : Env) : Outcome :=
  if !env.dirOk then
    Outcome.failed "Directory does not exist" env
  else
    if !(fexists env pr.path) ||
        !(statusSize env pr.path == some (desiredBytes pr)) then
      if !pr.checkMode then
        if !oc.mkstempOk then Outcome.failed "mkstemp failed" env
        else
          match stagedValidate pr oc (setFileSize env pr.tmpPath 0) with
          | Except.error e =>
              Outcome.failed ("Swap file creation failed: " ++ e.1)
                (cleanupFile e.2 pr.tmpPath)
          | Except.ok envS =>
            match swap_off false oc.finalSwapoffOk envS pr.path with
            | Except.error e => Outcome.failed e.1 (cleanupFile e.2 pr.tmpPath)
            | Except.ok (_, env5) =>
                presentTail pr oc true (atomicMove env5 pr.tmpPath pr.path) true
      else presentTail pr oc true env false
    else presentTail pr oc false env false

/-- `SwapFileModule._absent` (lines 523–529) together with the reporting of
`run()`: deactivate, remove, report accumulated changed and fresh status. -/
def absentRun (cm offOk : Bool) (unlinkErrno : Option Nat) (env : Env)
    (p : String) : Outcome :=
  match swap_off cm offOk env p with
  | Except.error e => Outcome.failed e.1 e.2
  | Except.ok (c1, env1) =>
    match remove cm unlinkErrno env1 p with
    | Except.error e => Outcome.failed e.1 e.2
    | Except.ok (c2, env2) =>
        Outcome.ok
          { changed := c1 || c2
            path := p
            size := statusSize env2 p
            priority := statusPriorityRaw env2 p } env2

/-! ## Lookup lemmas -/

theorem lookupF_map_set (l : List (String × Nat)) (p : String) (sz : Nat)
    (h : (lookupF l p).isSome = true) :
    lookupF (l.map (fun q => if q.1 = p then (p, sz) else q)) p = some sz := by
  induction l with
  | nil => simp [lookupF] at h
  | cons q rest ih =>
    by_cases hq : q.1 = p
    · simp [lookupF, hq]
    · simp only [lookupF, hq, if_false, List.map_cons, if_neg hq] at h ⊢
      exact ih h

theorem lookupF_map_ne (l : List (String × Nat)) (p q : String) (sz : Nat)
    (hne : ¬q = p) :
    lookupF (l.map (fun r => if r.1 = p then (p, sz) else r)) q = lookupF l q := by
  induction l with
  | nil => rfl
  | cons r rest ih =>
    have hpq : ¬p = q := fun hc => hne hc.symm
    by_cases hr : r.1 = p
    · simp only [List.map_cons, lookupF, hr, eq_self_iff_true, if_true, ih]
      simp only [if_neg hpq]
    · simp only [List.map_cons, if_neg hr, lookupF, ih]

theorem lookupF_set_self (env : Env) (p : String) (sz : Nat) :
    lookupF (setFileSize env p sz).files p = some sz := by
  unfold setFileSize
  by_cases h : fexists env p = true
  · simp only [h, if_true]
    exact lookupF_map_set _ _ _ h
  · simp only [h, if_false, Bool.false_eq_true]
    simp [lookupF]

theorem lookupF_set_ne (env : Env) (p q : String) (sz : Nat) (hne : ¬q = p) :
    lookupF (setFileSize env q sz).files p = lookupF env.files p := by
  unfold setFileSize
  by_cases h : fexists env q = true
  · simp only [h, if_true]
    exact lookupF_map_ne _ _ _ _ (fun hc => hne hc.symm)
  · simp only [h, if_false, Bool.false_eq_true, lookupF]
    simp [fun hc : q = p => hne hc]

theorem lookupF_filter_self (l : List (String × Nat)) (p : String) :
    lookupF (l.filter (fun q => !(q.1 = p))) p = none := by
  induction l with
  | nil => rfl
  | cons q rest ih =>
    by_cases hq : q.1 = p
    · simp [List.filter, hq, ih]
    · simp [List.filter, hq, lookupF, ih]

theorem lookupF_filter_ne (l : List (String × Nat)) (p q : String)
    (hne : ¬q = p) :
    lookupF (l.filter (fun r => !(r.1 = p))) q = lookupF l q := by
  induction l with
  | nil => rfl
  | cons r rest ih =>
    have hpq : ¬p = q := fun hc => hne hc.symm
    by_cases hr : r.1 = p
    · simp only [List.filter_cons, hr, decide_True, Bool.not_true, if_false,
        Bool.false_eq_true, ih, lookupF, if_neg hpq]
    · simp only [List.filter_cons, hr, decide_False, Bool.not_false, if_true,
        lookupF, ih]

theorem setFileSize_frame (env : Env) (p : String) (sz : Nat) :
    (setFileSize env p sz).formatted = env.formatted ∧
    (setFileSize env p sz).swaps = env.swaps ∧
    (setFileSize env p sz).permsOk = env.permsOk ∧
    (setFileSize env p sz).sysPrio = env.sysPrio ∧
    (setFileSize env p sz).dirOk = env.dirOk := by
  unfold setFileSize
  by_cases h : fexists env p = true <;> simp [h]

theorem containsS_cons_self (l : List String) (p : String) :
    containsS (p :: l) p = true := by
  simp [containsS]

theorem containsS_cons_ne (l : List String) (p q : String) (h : ¬q = p) :
    containsS (q :: l) p = containsS l p := by
  simp [containsS, h]

theorem swapLookup_append_last (l : List (String × Int)) (p : String) (v : Int) :
    swapLookup (l ++ [(p, v)]) p = some v := by
  induction l with
  | nil => simp [swapLookup]
  | cons q rest ih => simp [swapLookup, ih]

theorem swapLookup_append_ne (l : List (String × Int)) (p q : String) (v : Int)
    (hne : ¬p = q) :
    swapLookup (l ++ [(p, v)]) q = swapLookup l q := by
  induction l with
  | nil => simp [swapLookup, hne]
  | cons r rest ih => simp [swapLookup, ih]

theorem swapLookup_filter_self (l : List (String × Int)) (p : String) :
    swapLookup (l.filter (fun r => !(r.1 = p))) p = none := by
  induction l with
  | nil => rfl
  | cons r rest ih =>
    rw [List.filter_cons]
    by_cases hr : r.1 = p
    · simp [hr, ih]
    · simp [hr, swapLookup, ih]

theorem swapLookup_filter_ne (l : List (String × Int)) (p q : String)
    (hne : ¬q = p) :
    swapLookup (l.filter (fun r => !(r.1 = p))) q = swapLookup l q := by
  induction l with
  | nil => rfl
  | cons r rest ih =>
    rw [List.filter_cons]
    by_cases hr : r.1 = p
    · have hrq : ¬r.1 = q := by rw [hr]; exact fun hc => hne hc.symm
      simp only [hr, decide_True, Bool.not_true, if_false, Bool.false_eq_true, ih]
      cases hv : swapLookup rest q <;> simp [swapLookup, hv, hrq]
    · simp [hr, swapLookup, ih]

theorem containsS_append (l1 l2 : List String) (p : String) :
    containsS (l1 ++ l2) p = (containsS l1 p || containsS l2 p) := by
  induction l1 with
  | nil => simp [containsS]
  | cons q rest ih =>
    by_cases hq : q = p <;> simp [containsS, hq, ih]

theorem containsS_filter_false (l : List String) (f : String → Bool) (p : String)
    (hf : f p = false) :
    containsS (l.filter f) p = false := by
  induction l with
  | nil => rfl
  | cons r rest ih =>
    rw [List.filter_cons]
    by_cases hr : f r = true
    · have hrp : ¬r = p := fun hc => by rw [hc, hf] at hr; cases hr
      simp [hr, containsS, hrp, ih]
    · simp only [Bool.not_eq_true] at hr
      simp [hr, ih]

theorem containsS_filter_keep (l : List String) (f : String → Bool) (p : String)
    (hf : f p = true) :
    containsS (l.filter f) p = containsS l p := by
  induction l with
  | nil => rfl
  | cons r rest ih =>
    rw [List.filter_cons]
    by_cases hrp : r = p
    · rw [hrp, hf, if_pos rfl]
      simp [containsS, ih]
    · by_cases hr : f r = true
      · simp [hr, containsS, hrp, ih]
      · simp only [Bool.not_eq_true] at hr
        simp [hr, containsS, hrp, ih]

/-- C4: the activation state machine of `SwapFile.swap_on` with successful
commands — an inactive file is activated at the requested priority with
changed true; an active file whose current priority differs from the
requested one with at least one of the two >= 0 is deactivated first and
then activated at the requested priority with changed true (the
unknown-current-priority branch of the condition is unreachable: an active
file always reports a priority); otherwise (equal priorities, or both
negative) nothing is done and changed is false. -/
theorem c4_swap_on_state_machine (env : Env) (p : String) (req : Int) :
    (statusIsOn env p = false →
        swap_on false true true env p req =
          Except.ok (true, activateAt env p req)) ∧
    (statusIsOn env p = true → (statusPriorityInt env p).isSome = true) ∧
    (∀ c, statusIsOn env p = true → statusPriorityInt env p = some c →
        ((¬req = c ∧ (0 ≤ req ∨ 0 ≤ c)) →
            swap_on false true true env p req =
              Except.ok (true, activateAt (swapsErase env p) p req)) ∧
        ((req = c ∨ (req < 0 ∧ c < 0)) →
            swap_on false true true env p req = Except.ok (false, env))) := by
  refine ⟨?_, ?_, ?_⟩
  · intro h
    simp [swap_on, swapOnCond, h]
  · intro h
    rw [statusIsOn, Bool.and_eq_true] at h
    rw [statusPriorityInt, if_pos h.1]
    exact h.2
  · intro c hon hc
    constructor
    · intro hcond
      have hcondb : swapOnCond env p req = true := by
        simp [swapOnCond, hc]
        exact Or.inr hcond
      simp [swap_on, hcondb, hon, swap_off]
    · intro hcond
      have hcondb : swapOnCond env p req = false := by
        rcases hcond with h2 | h2
        · simp [swapOnCond, hon, hc, h2]
        · simp [swapOnCond, hon, hc, not_le.mpr h2.1, not_le.mpr h2.2]
      simp [swap_on, hcondb]

/-- Witness for C4: a concrete inactive file is activated at priority 3; a
concrete file active at priority 1 is deactivated and reactivated when 3 is
requested, and left alone when 1 is requested. -/
theorem c4_swap_on_witness :
    swap_on false true true
      { files := [("/s", 1048576)], formatted := ["/s"], swaps := [],
        permsOk := [], sysPrio := -2, dirOk := true } "/s" 3 =
      Except.ok (true, activateAt
        { files := [("/s", 1048576)], formatted := ["/s"], swaps := [],
          permsOk := [], sysPrio := -2, dirOk := true } "/s" 3) ∧
    swap_on false true true
      { files := [("/s", 1048576)], formatted := ["/s"], swaps := [("/s", 1)],
        permsOk := [], sysPrio := -2, dirOk := true } "/s" 3 =
      Except.ok (true, activateAt (swapsErase
        { files := [("/s", 1048576)], formatted := ["/s"], swaps := [("/s", 1)],
          permsOk := [], sysPrio := -2, dirOk := true } "/s") "/s" 3) ∧
    swap_on false true true
      { files := [("/s", 1048576)], formatted := ["/s"], swaps := [("/s", 1)],
        permsOk := [], sysPrio := -2, dirOk := true } "/s" 1 =
      Except.ok (false,
        { files := [("/s", 1048576)], formatted := ["/s"], swaps := [("/s", 1)],
          permsOk := [], sysPrio := -2, dirOk := true }) := by
  refine ⟨(c4_swap_on_state_machine _ "/s" 3).1 (by decide),
    ((c4_swap_on_state_machine _ "/s" 3).2.2 1 (by decide) (by decide)).1
      (by constructor <;> decide),
    ((c4_swap_on_state_machine _ "/s" 1).2.2 1 (by decide) (by decide)).2
      (Or.inl rfl)⟩

/-- C8: the size postcondition of `SwapFile.allocate` — when the creation
command exits 0, success means the on-disk size is exactly
size-in-MiB × 1048576 bytes, and whenever the produced file size differs
(short or zero-length file) the explicit size check fails with the
capacity error even though the exit code was 0. -/
theorem c8_allocate_size_postcondition (env : Env) (p : String) (mib : Nat)
    (fs : Option String) (kernel : List Nat) (ccmd : Option AllocCmd)
    (chattrOk : Bool) (createdSize : Nat) (cErr : String) :
    (∀ env1, allocate env p mib fs kernel ccmd chattrOk true createdSize cErr =
        Except.ok env1 →
      createdSize = mib * (1024 * 1024) ∧
      statusSize env1 p = some (mib * (1024 * 1024))) ∧
    (∀ cmd nocow, selectCreate fs kernel ccmd = Except.ok (cmd, nocow) →
      (nocow = true → chattrOk = true) → ¬createdSize = mib * (1024 * 1024) →
      allocate env p mib fs kernel ccmd chattrOk true createdSize cErr =
        Except.error (sizeErrMsg, setFileSize env p createdSize)) := by
  constructor
  · intro env1 h
    unfold allocate at h
    split at h
    · cases h
    · split at h
      · cases h
      · simp only [eq_self_iff_true, if_true] at h
        split at h
        · rename_i hsz
          cases h
          exact ⟨hsz, by rw [statusSize, lookupF_set_self, hsz]⟩
        · cases h
  · intro cmd nocow hsel hchattr hsz
    have hn : (nocow && !chattrOk) = false := by
      cases nocow
      · rfl
      · rw [hchattr rfl]; rfl
    unfold allocate
    rw [hsel]
    simp only [hn, Bool.false_eq_true, if_false, eq_self_iff_true, if_true,
      if_neg hsz]

/-- Witness for C8: a concrete 1 MiB allocation succeeds with on-disk size
1048576, and a zero-length outcome of the creation command fails with the
capacity error despite exit code 0. -/
theorem c8_allocate_witness :
    statusSize (setFileSize
      { files := [], formatted := [], swaps := [], permsOk := [],
        sysPrio := -2, dirOk := true } "/t" 1048576) "/t" =
      some (1 * (1024 * 1024)) ∧
    allocate
      { files := [], formatted := [], swaps := [], permsOk := [],
        sysPrio := -2, dirOk := true } "/t" 1 none [6, 1] none true true 0
      "dd failed" =
      Except.error (sizeErrMsg, setFileSize
        { files := [], formatted := [], swaps := [], permsOk := [],
          sysPrio := -2, dirOk := true } "/t" 0) := by
  refine ⟨((c8_allocate_size_postcondition _ "/t" 1 none [6, 1] none true
      1048576 "dd failed").1 _ rfl).2,
    (c8_allocate_size_postcondition _ "/t" 1 none [6, 1] none true 0
      "dd failed").2 AllocCmd.dd false rfl (by decide) (by decide)⟩

/-- C9: reconciling absent on a nonexistent path deactivates nothing,
removes nothing, raises no error and reports changed false; and inside
`remove`, an unlink that fails with ENOENT because the file vanished after
the existence check is treated as success. -/
theorem c9_absent_nonexistent (cm offOk : Bool) (ue : Option Nat) (env : Env)
    (p : String) :
    (fexists env p = false →
        absentRun cm offOk ue env p =
          Outcome.ok { changed := false, path := p, size := none,
                       priority := none } env) ∧
    (fexists env p = true →
        remove false (some 2) env p = Except.ok (true, eraseFile env p)) := by
  constructor
  · intro h
    have hl : lookupF env.files p = none := by
      cases hv : lookupF env.files p with
      | none => rfl
      | some v => rw [fexists, hv] at h; cases h
    simp [absentRun, swap_off, remove, statusIsOn, fexists, statusSize,
      statusPriorityRaw, statusPriorityInt, hl]
  · intro h
    simp [remove, h]

/-- Witness for C9: absent on an empty environment, and the ENOENT race on
a concrete existing file. -/
theorem c9_absent_witness :
    absentRun false true none
      { files := [], formatted := [], swaps := [], permsOk := [],
        sysPrio := -2, dirOk := true } "/s" =
      Outcome.ok { changed := false, path := "/s", size := none,
                   priority := none }
        { files := [], formatted := [], swaps := [], permsOk := [],
          sysPrio := -2, dirOk := true } ∧
    remove false (some 2)
      { files := [("/s", 1048576)], formatted := [], swaps := [],
        permsOk := [], sysPrio := -2, dirOk := true } "/s" =
      Except.ok (true, eraseFile
        { files := [("/s", 1048576)], formatted := [], swaps := [],
          permsOk := [], sysPrio := -2, dirOk := true } "/s") := by
  exact ⟨(c9_absent_nonexistent false true none _ "/s").1 (by decide),
    (c9_absent_nonexistent false true (some 2) _ "/s").2 (by decide)⟩

/-- C10: on a successful run the module returns exactly
{changed, path, size, priority}, but the priority field, when present, is
the raw string token copied from the `swapon --show` output
(swap_file.py line 297), not an integer — contradicting the module's own
RETURN documentation (`priority: type: int`).  Concretely, for a swap file
active at priority 5 the result carries the string 5. -/
theorem c10_priority_is_raw_string_token :
    present
      { path := "/s", tmpPath := "/t", sizeInMib := 1, priority := 5,
        fs := none, kernel := [6, 1], createCmd := none, checkMode := false }
      { mkstempOk := true, chattrOk := true, createOk := true,
        createdSize := 1048576, createErr := "dd failed", tmpMkswapOk := true,
        tmpSwaponOk := true, tmpSwapoffOk := true, finalSwapoffOk := true,
        finalMkswapOk := true, finalSwaponOk := true }
      { files := [("/s", 1048576)], formatted := ["/s"], swaps := [("/s", 5)],
        permsOk := ["/s"], sysPrio := -2, dirOk := true } =
    Outcome.ok
      { changed := false, path := "/s", size := some 1048576,
        priority := some "5" }
      { files := [("/s", 1048576)], formatted := ["/s"], swaps := [("/s", 5)],
        permsOk := ["/s"], sysPrio := -2, dirOk := true } := by
  rfl

/-! ## Postconditions of the mutating operations (real mode) -/

theorem swap_off_ok_post (cmdOk : Bool) (env : Env) (p : String) (c : Bool)
    (env1 : Env) (h : swap_off false cmdOk env p = Except.ok (c, env1)) :
    env1.files = env.files ∧ env1.formatted = env.formatted ∧
    env1.permsOk = env.permsOk ∧ env1.sysPrio = env.sysPrio ∧
    env1.dirOk = env.dirOk ∧ (env1 = env ∨ env1 = swapsErase env p) := by
  unfold swap_off at h
  split at h
  · simp only [Bool.false_eq_true, if_false] at h
    split at h
    · cases h
      exact ⟨rfl, rfl, rfl, rfl, rfl, Or.inr rfl⟩
    · cases h
  · cases h
    exact ⟨rfl, rfl, rfl, rfl, rfl, Or.inl rfl⟩

theorem mkswap_ok_post (cmdOk : Bool) (env : Env) (p : String) (c : Bool)
    (env1 : Env) (h : mkswap false cmdOk env p = Except.ok (c, env1)) :
    env1.files = env.files ∧ env1.swaps = env.swaps ∧
    env1.permsOk = env.permsOk ∧ env1.sysPrio = env.sysPrio ∧
    env1.dirOk = env.dirOk ∧ containsS env1.formatted p = true ∧
    (∀ q, ¬q = p → containsS env1.formatted q = containsS env.formatted q) ∧
    c = !(statusIsFormatted env p) := by
  unfold mkswap at h
  split at h
  case isTrue hnf =>
    simp only [Bool.false_eq_true, if_false] at h
    split at h
    · cases h
      refine ⟨rfl, rfl, rfl, rfl, rfl, containsS_cons_self _ _, ?_, hnf.symm⟩
      intro q hq
      exact containsS_cons_ne _ _ _ (fun hc => hq hc.symm)
    · cases h
  case isFalse hnf =>
    cases h
    have hf : statusIsFormatted env p = true := by
      cases hv : statusIsFormatted env p
      · rw [hv] at hnf; exact absurd rfl hnf
      · rfl
    have hcont : containsS env.formatted p = true :=
      ((Bool.and_eq_true _ _).mp hf).2
    exact ⟨rfl, rfl, rfl, rfl, rfl, hcont, fun q hq => rfl, by rw [hf]; rfl⟩

theorem set_perms_post (env : Env) (p : String) (c2 : Bool) (env2 : Env)
    (h : set_perms false env p = (c2, env2)) :
    env2.files = env.files ∧ env2.formatted = env.formatted ∧
    env2.swaps = env.swaps ∧ env2.sysPrio = env.sysPrio ∧
    env2.dirOk = env.dirOk ∧ containsS env2.permsOk p = true ∧
    (∀ q, ¬q = p → containsS env2.permsOk q = containsS env.permsOk q) ∧
    c2 = !(containsS env.permsOk p) := by
  unfold set_perms at h
  by_cases hc : containsS env.permsOk p = true
  · rw [if_pos hc] at h
    cases h
    exact ⟨rfl, rfl, rfl, rfl, rfl, hc, fun q hq => rfl, by rw [hc]; rfl⟩
  · have hcf : containsS env.permsOk p = false := by
      cases hv : containsS env.permsOk p
      · rfl
      · exact absurd hv hc
    rw [if_neg hc] at h
    simp only [Bool.false_eq_true, if_false] at h
    cases h
    refine ⟨rfl, rfl, rfl, rfl, rfl, containsS_cons_self _ _, ?_,
      by rw [hcf]; rfl⟩
    intro q hq
    exact containsS_cons_ne _ _ _ (fun h2 => hq h2.symm)

theorem swap_on_ok_post (offOk onOk : Bool) (env : Env) (p : String) (req : Int)
    (c3 : Bool) (env3 : Env) (hsys : env.sysPrio < 0)
    (h : swap_on false offOk onOk env p req = Except.ok (c3, env3)) :
    env3.files = env.files ∧ env3.formatted = env.formatted ∧
    env3.permsOk = env.permsOk ∧ env3.sysPrio = env.sysPrio ∧
    env3.dirOk = env.dirOk ∧
    (∀ q, ¬q = p → swapLookup env3.swaps q = swapLookup env.swaps q) ∧
    ∃ c, swapLookup env3.swaps p = some c ∧
      (0 ≤ req → c = req) ∧ (req < 0 → c < 0) := by
  unfold swap_on at h
  split at h
  · by_cases hon : statusIsOn env p = true
    · rw [if_pos hon] at h
      cases hsw : swap_off false offOk env p with
      | error e => rw [hsw] at h; cases h
      | ok pair =>
        obtain ⟨cc, env1⟩ := pair
        rw [hsw] at h
        simp only [Bool.false_eq_true, if_false] at h
        split at h
        · cases h
          obtain ⟨hf, hfo, hpe, hsy, hdi, hd⟩ := swap_off_ok_post offOk env p cc env1 hsw
          refine ⟨hf, hfo, hpe, hsy, hdi, ?_,
            (if 0 ≤ req then req else env1.sysPrio), ?_, ?_, ?_⟩
          · intro q hq
            rw [activateAt]
            rw [swapLookup_append_ne _ _ _ _ (fun hc => hq hc.symm)]
            rcases hd with hd | hd
            · rw [hd]
            · rw [hd, swapsErase]
              exact swapLookup_filter_ne _ _ _ hq
          · exact swapLookup_append_last _ _ _
          · intro hr; rw [if_pos hr]
          · intro hr; rw [if_neg (not_le.mpr hr), hsy]; exact hsys
        · cases h
    · rw [if_neg hon] at h
      simp only [Bool.false_eq_true, if_false] at h
      split at h
      · cases h
        refine ⟨rfl, rfl, rfl, rfl, rfl, ?_,
          (if 0 ≤ req then req else env.sysPrio), ?_, ?_, ?_⟩
        · intro q hq
          exact swapLookup_append_ne _ _ _ _ (fun hc => hq hc.symm)
        · exact swapLookup_append_last _ _ _
        · intro hr; rw [if_pos hr]
        · intro hr; rw [if_neg (not_le.mpr hr)]; exact hsys
      · cases h
  · rename_i hcond
    cases h
    have hon : statusIsOn env p = true := by
      cases hio : statusIsOn env p
      · exfalso; apply hcond
        simp [swapOnCond, hio]
      · rfl
    have hex : fexists env p = true := ((Bool.and_eq_true _ _).mp hon).1
    have hsome : (swapLookup env.swaps p).isSome = true :=
      ((Bool.and_eq_true _ _).mp hon).2
    obtain ⟨c, hc0⟩ := Option.isSome_iff_exists.mp hsome
    have hc : statusPriorityInt env p = some c := by
      rw [statusPriorityInt, if_pos hex, hc0]
    have hX : (decide (¬req = c) && (decide (0 ≤ req) || decide (0 ≤ c))) = false := by
      cases hxv : (decide (¬req = c) && (decide (0 ≤ req) || decide (0 ≤ c)))
      · rfl
      · exfalso
        apply hcond
        simp at hxv
        simp [swapOnCond, hc]
        exact Or.inr hxv
    refine ⟨rfl, rfl, rfl, rfl, rfl, fun q hq => rfl, c, hc0, ?_, ?_⟩
    · intro hr
      by_cases hrc : req = c
      · exact hrc.symm
      · exfalso
        rw [Bool.and_eq_false_iff] at hX
        rcases hX with hx1 | hx2
        · simp at hx1; exact hrc hx1
        · rw [Bool.or_eq_false_iff] at hx2
          have h1 := hx2.1
          simp at h1
          exact absurd hr (not_le.mpr h1)
    · intro hr
      by_cases hrc : req = c
      · rw [← hrc]; exact hr
      · rw [Bool.and_eq_false_iff] at hX
        rcases hX with hx1 | hx2
        · simp at hx1; exact absurd hx1 hrc
        · rw [Bool.or_eq_false_iff] at hx2
          have h2 := hx2.2
          simp at h2
          exact h2

theorem lookupF_append (l1 l2 : List (String × Nat)) (p : String) :
    lookupF (l1 ++ l2) p =
      (match lookupF l1 p with
       | some v => some v
       | none => lookupF l2 p) := by
  induction l1 with
  | nil => rfl
  | cons q rest ih =>
    by_cases hq : q.1 = p <;> simp [lookupF, hq, ih]

theorem lookupF_filter_key_none (l : List (String × Nat))
    (f : String × Nat → Bool) (p : String) (hf : ∀ q, q.1 = p → f q = false) :
    lookupF (l.filter f) p = none := by
  induction l with
  | nil => rfl
  | cons r rest ih =>
    rw [List.filter_cons]
    by_cases hr : f r = true
    · have hrp : ¬r.1 = p := fun hc => by rw [hf r hc] at hr; cases hr
      simp [hr, lookupF, hrp, ih]
    · have hrf : f r = false := by
        cases hv : f r
        · rfl
        · exact absurd hv hr
      simp [hrf, ih]

theorem lookupF_filter_key_keep (l : List (String × Nat))
    (f : String × Nat → Bool) (p : String) (hf : ∀ q, q.1 = p → f q = true) :
    lookupF (l.filter f) p = lookupF l p := by
  induction l with
  | nil => rfl
  | cons r rest ih =>
    rw [List.filter_cons]
    by_cases hrp : r.1 = p
    · rw [hf r hrp, if_pos rfl]
      simp [lookupF, hrp, ih]
    · by_cases hr : f r = true
      · simp [hr, lookupF, hrp, ih]
      · have hrf : f r = false := by
          cases hv : f r
          · rfl
          · exact absurd hv hr
        simp [hrf, lookupF, hrp, ih]

/-- Key facts about `atomic_move`: the destination carries the source's
size, signature and permission state; the source is gone; the swap table
and the remaining environment are untouched. -/
theorem atomicMove_post (env : Env) (src dst : String) (sz : Nat)
    (hsrc : lookupF env.files src = some sz) (hne : ¬dst = src) :
    lookupF (atomicMove env src dst).files dst = some sz ∧
    lookupF (atomicMove env src dst).files src = none ∧
    containsS (atomicMove env src dst).formatted dst = containsS env.formatted src ∧
    containsS (atomicMove env src dst).permsOk dst = containsS env.permsOk src ∧
    (atomicMove env src dst).swaps = env.swaps ∧
    (atomicMove env src dst).sysPrio = env.sysPrio ∧
    (atomicMove env src dst).dirOk = env.dirOk := by
  unfold atomicMove
  rw [hsrc]
  refine ⟨?_, ?_, ?_, ?_, rfl, rfl, rfl⟩
  · rw [lookupF_append, lookupF_filter_key_none]
    · simp [lookupF]
    · intro q hq
      rw [hq]
      simp
  · rw [lookupF_append, lookupF_filter_key_none]
    · simp [lookupF, fun hc : dst = src => hne hc]
    · intro q hq
      rw [hq]
      simp
  · rw [containsS_append, containsS_filter_false]
    · by_cases hs : containsS env.formatted src = true
      · rw [hs, if_pos rfl]
        simp [containsS]
      · have hsf : containsS env.formatted src = false := by
          cases hv : containsS env.formatted src
          · rfl
          · exact absurd hv hs
        rw [hsf]
        simp [containsS]
    · simp
  · rw [containsS_append, containsS_filter_false]
    · by_cases hs : containsS env.permsOk src = true
      · rw [hs, if_pos rfl]
        simp [containsS]
      · have hsf : containsS env.permsOk src = false := by
          cases hv : containsS env.permsOk src
          · rfl
          · exact absurd hv hs
        rw [hsf]
        simp [containsS]
    · simp

theorem cleanupFile_removes (env : Env) (tmp : String) :
    lookupF (cleanupFile env tmp).files tmp = none := by
  unfold cleanupFile eraseFile
  by_cases hf : fexists env tmp = true
  · rw [if_pos hf]
    exact lookupF_filter_self _ _
  · rw [if_neg hf]
    cases hv : lookupF env.files tmp with
    | none => rfl
    | some v => exact absurd (by rw [fexists, hv]; rfl) hf

theorem cleanupFile_frame (env : Env) (tmp q : String) (hne : ¬q = tmp) :
    lookupF (cleanupFile env tmp).files q = lookupF env.files q ∧
    (cleanupFile env tmp).formatted = env.formatted ∧
    (cleanupFile env tmp).swaps = env.swaps ∧
    (cleanupFile env tmp).permsOk = env.permsOk ∧
    (cleanupFile env tmp).sysPrio = env.sysPrio ∧
    (cleanupFile env tmp).dirOk = env.dirOk := by
  unfold cleanupFile eraseFile
  by_cases hf : fexists env tmp = true
  · rw [if_pos hf]
    exact ⟨lookupF_filter_ne _ _ _ hne, rfl, rfl, rfl, rfl, rfl⟩
  · rw [if_neg hf]
    exact ⟨rfl, rfl, rfl, rfl, rfl, rfl⟩

theorem doCleanup_post (reg : Bool) (env : Env) (tmp q : String)
    (hne : ¬q = tmp) :
    lookupF (doCleanup reg env tmp).files q = lookupF env.files q ∧
    (doCleanup reg env tmp).formatted = env.formatted ∧
    (doCleanup reg env tmp).swaps = env.swaps ∧
    (doCleanup reg env tmp).permsOk = env.permsOk ∧
    (doCleanup reg env tmp).sysPrio = env.sysPrio ∧
    (doCleanup reg env tmp).dirOk = env.dirOk := by
  unfold doCleanup
  by_cases hr : reg = true
  · rw [if_pos hr]
    exact cleanupFile_frame env tmp q hne
  · rw [if_neg hr]
    exact ⟨rfl, rfl, rfl, rfl, rfl, rfl⟩

theorem allocate_ok_post (env : Env) (p : String) (mib : Nat)
    (fs : Option String) (kernel : List Nat) (ccmd : Option AllocCmd)
    (chattrOk createOk : Bool) (createdSize : Nat) (cErr : String) (env1 : Env)
    (h : allocate env p mib fs kernel ccmd chattrOk createOk createdSize cErr =
      Except.ok env1) :
    env1 = setFileSize env p createdSize ∧ createdSize = mib * (1024 * 1024) := by
  unfold allocate at h
  split at h
  · cases h
  · split at h
    · cases h
    · split at h
      · split at h
        case isTrue hsz =>
          cases h
          exact ⟨rfl, hsz⟩
        case isFalse hsz => cases h
      · cases h

theorem allocate_err_env (env : Env) (p : String) (mib : Nat)
    (fs : Option String) (kernel : List Nat) (ccmd : Option AllocCmd)
    (chattrOk createOk : Bool) (createdSize : Nat) (cErr : String)
    (e : String) (envE : Env)
    (h : allocate env p mib fs kernel ccmd chattrOk createOk createdSize cErr =
      Except.error (e, envE)) :
    envE = env ∨ envE = setFileSize env p createdSize := by
  unfold allocate at h
  split at h
  · cases h
    exact Or.inl rfl
  · split at h
    · cases h
      exact Or.inl rfl
    · split at h
      · split at h
        · cases h
        · cases h
          exact Or.inr rfl
      · cases h
        exact Or.inr rfl

theorem mkswap_err_env (cmdOk : Bool) (env : Env) (p : String) (e : String)
    (envE : Env) (h : mkswap false cmdOk env p = Except.error (e, envE)) :
    envE = env := by
  unfold mkswap at h
  split at h
  · simp only [Bool.false_eq_true, if_false] at h
    split at h
    · cases h
    · cases h
      rfl
  · cases h

theorem swap_off_err_env (cmdOk : Bool) (env : Env) (p : String) (e : String)
    (envE : Env) (h : swap_off false cmdOk env p = Except.error (e, envE)) :
    envE = env := by
  unfold swap_off at h
  split at h
  · simp only [Bool.false_eq_true, if_false] at h
    split at h
    · cases h
    · cases h
      rfl
  · cases h

theorem swap_on_err_env (offOk onOk : Bool) (env : Env) (p : String)
    (req : Int) (e : String) (envE : Env)
    (h : swap_on false offOk onOk env p req = Except.error (e, envE)) :
    envE = env ∨ envE = swapsErase env p := by
  unfold swap_on at h
  split at h
  · by_cases hon : statusIsOn env p = true
    · rw [if_pos hon] at h
      cases hsw : swap_off false offOk env p with
      | error pe =>
        rw [hsw] at h
        cases h
        exact Or.inl (swap_off_err_env _ _ _ _ _ hsw)
      | ok pair =>
        obtain ⟨cc, env1⟩ := pair
        rw [hsw] at h
        simp only [Bool.false_eq_true, if_false] at h
        split at h
        · cases h
        · cases h
          rcases (swap_off_ok_post _ _ _ _ _ hsw).2.2.2.2.2 with hd | hd
          · exact Or.inl hd
          · exact Or.inr hd
    · rw [if_neg hon] at h
      simp only [Bool.false_eq_true, if_false] at h
      split at h
      · cases h
      · cases h
        exact Or.inl rfl
  · cases h

/-- The final-path resource matches the desired state: right size on disk,
swap signature present, permissions synced, and active at a priority
compatible with the requested one (equal when the request is >= 0,
some negative system-assigned value when the request is negative). -/
def Settled (pr : Params) (env : Env) : Prop :=
  lookupF env.files pr.path = some (desiredBytes pr) ∧
  containsS env.formatted pr.path = true ∧
  containsS env.permsOk pr.path = true ∧
  ∃ c, swapLookup env.swaps pr.path = some c ∧
    (0 ≤ pr.priority → c = pr.priority) ∧ (pr.priority < 0 → c < 0)

/-- A successful staged validation leaves the temp file fully allocated at
the desired size and formatted, touches nothing but the temp path, and
preserves the system fields. -/
theorem stagedValidate_ok_post (pr : Params) (oc : CmdOutcomes) (env : Env)
    (envS : Env) (hsys : env.sysPrio < 0)
    (h : stagedValidate pr oc env = Except.ok envS) :
    lookupF envS.files pr.tmpPath = some (desiredBytes pr) ∧
    containsS envS.formatted pr.tmpPath = true ∧
    envS.permsOk = env.permsOk ∧
    envS.sysPrio = env.sysPrio ∧ envS.dirOk = env.dirOk ∧
    (∀ q, ¬q = pr.tmpPath → lookupF envS.files q = lookupF env.files q) ∧
    (∀ q, ¬q = pr.tmpPath →
      containsS envS.formatted q = containsS env.formatted q) ∧
    (∀ q, ¬q = pr.tmpPath → swapLookup envS.swaps q = swapLookup env.swaps q) := by
  unfold stagedValidate at h
  cases hal : allocate env pr.tmpPath pr.sizeInMib pr.fs pr.kernel pr.createCmd
      oc.chattrOk oc.createOk oc.createdSize oc.createErr with
  | error e => rw [hal] at h; cases h
  | ok env1 =>
    rw [hal] at h
    dsimp only at h
    obtain ⟨henv1, hcs⟩ := allocate_ok_post _ _ _ _ _ _ _ _ _ _ _ hal
    subst henv1
    obtain ⟨a_fo, a_s, a_p, a_sy, a_d⟩ :=
      setFileSize_frame env pr.tmpPath oc.createdSize
    cases hmk : mkswap false oc.tmpMkswapOk
        (setFileSize env pr.tmpPath oc.createdSize) pr.tmpPath with
    | error e => rw [hmk] at h; cases h
    | ok pm =>
      obtain ⟨c1, env2⟩ := pm
      rw [hmk] at h
      dsimp only at h
      obtain ⟨m_f, m_s, m_p, m_sy, m_d, m_cf, m_cfq, _⟩ :=
        mkswap_ok_post _ _ _ _ _ hmk
      cases hso : swap_on false oc.tmpSwapoffOk oc.tmpSwaponOk env2 pr.tmpPath
          pr.priority with
      | error e => rw [hso] at h; cases h
      | ok ps =>
        obtain ⟨c2, env3⟩ := ps
        rw [hso] at h
        dsimp only at h
        have hsys2 : env2.sysPrio < 0 := by rw [m_sy, a_sy]; exact hsys
        obtain ⟨s_f, s_fo, s_p, s_sy, s_d, s_fr, _⟩ :=
          swap_on_ok_post _ _ _ _ _ _ _ hsys2 hso
        cases hsw : swap_off false oc.tmpSwapoffOk env3 pr.tmpPath with
        | error e => rw [hsw] at h; cases h
        | ok pw =>
          obtain ⟨c3, env4⟩ := pw
          rw [hsw] at h
          cases h
          obtain ⟨w_f, w_fo, w_p, w_sy, w_d, w_or⟩ :=
            swap_off_ok_post _ _ _ _ _ hsw
          refine ⟨?_, ?_, ?_, ?_, ?_, ?_, ?_, ?_⟩
          · rw [w_f, s_f, m_f, lookupF_set_self, hcs]
            rfl
          · rw [w_fo, s_fo, m_cf]
          · rw [w_p, s_p, m_p, a_p]
          · rw [w_sy, s_sy, m_sy, a_sy]
          · rw [w_d, s_d, m_d, a_d]
          · intro q hq
            rw [w_f, s_f, m_f]
            exact lookupF_set_ne _ _ _ _ (fun hc => hq hc.symm)
          · intro q hq
            rw [w_fo, s_fo, m_cfq q hq, a_fo]
          · intro q hq
            have h4 : swapLookup envS.swaps q = swapLookup env3.swaps q := by
              rcases w_or with hd | hd
              · rw [hd]
              · rw [hd, swapsErase]
                exact swapLookup_filter_ne _ _ _ hq
            rw [h4, s_fr q hq, m_s, a_s]

/-- Any failure inside the staged validation pipeline leaves every path
other than the temp path untouched: the file table, swap signatures and
swap table at other paths (in particular at the final path) are exactly
those before the pipeline ran. -/
theorem stagedValidate_err_frame (pr : Params) (oc : CmdOutcomes) (env : Env)
    (e : String) (envE : Env) (hsys : env.sysPrio < 0)
    (h : stagedValidate pr oc env = Except.error (e, envE)) :
    (∀ q, ¬q = pr.tmpPath → lookupF envE.files q = lookupF env.files q) ∧
    (∀ q, ¬q = pr.tmpPath →
      containsS envE.formatted q = containsS env.formatted q) ∧
    (∀ q, ¬q = pr.tmpPath → swapLookup envE.swaps q = swapLookup env.swaps q) := by
  unfold stagedValidate at h
  obtain ⟨a_fo, a_s, a_p, a_sy, a_d⟩ :=
    setFileSize_frame env pr.tmpPath oc.createdSize
  cases hal : allocate env pr.tmpPath pr.sizeInMib pr.fs pr.kernel pr.createCmd
      oc.chattrOk oc.createOk oc.createdSize oc.createErr with
  | error pe =>
    rw [hal] at h
    cases h
    rcases allocate_err_env _ _ _ _ _ _ _ _ _ _ _ _ hal with hd | hd
    · rw [hd]
      exact ⟨fun q hq => rfl, fun q hq => rfl, fun q hq => rfl⟩
    · rw [hd]
      exact ⟨fun q hq => lookupF_set_ne _ _ _ _ (fun hc => hq hc.symm),
        fun q hq => by rw [a_fo], fun q hq => by rw [a_s]⟩
  | ok env1 =>
    rw [hal] at h
    dsimp only at h
    obtain ⟨henv1, hcs⟩ := allocate_ok_post _ _ _ _ _ _ _ _ _ _ _ hal
    subst henv1
    cases hmk : mkswap false oc.tmpMkswapOk
        (setFileSize env pr.tmpPath oc.createdSize) pr.tmpPath with
    | error pe =>
      rw [hmk] at h
      cases h
      rw [mkswap_err_env _ _ _ _ _ hmk]
      exact ⟨fun q hq => lookupF_set_ne _ _ _ _ (fun hc => hq hc.symm),
        fun q hq => by rw [a_fo], fun q hq => by rw [a_s]⟩
    | ok pm =>
      obtain ⟨c1, env2⟩ := pm
      rw [hmk] at h
      dsimp only at h
      obtain ⟨m_f, m_s, m_p, m_sy, m_d, m_cf, m_cfq, _⟩ :=
        mkswap_ok_post _ _ _ _ _ hmk
      have env2frame : (∀ q, ¬q = pr.tmpPath →
            lookupF env2.files q = lookupF env.files q) ∧
          (∀ q, ¬q = pr.tmpPath →
            containsS env2.formatted q = containsS env.formatted q) ∧
          (∀ q, ¬q = pr.tmpPath →
            swapLookup env2.swaps q = swapLookup env.swaps q) := by
        refine ⟨?_, ?_, ?_⟩
        · intro q hq
          rw [m_f]
          exact lookupF_set_ne _ _ _ _ (fun hc => hq hc.symm)
        · intro q hq
          rw [m_cfq q hq, a_fo]
        · intro q hq
          rw [m_s, a_s]
      cases hso : swap_on false oc.tmpSwapoffOk oc.tmpSwaponOk env2 pr.tmpPath
          pr.priority with
      | error pe =>
        rw [hso] at h
        cases h
        rcases swap_on_err_env _ _ _ _ _ _ _ hso with hd | hd
        · rw [hd]
          exact env2frame
        · rw [hd, swapsErase]
          exact ⟨env2frame.1, env2frame.2.1,
            fun q hq => by
              rw [swapLookup_filter_ne _ _ _ hq]
              exact env2frame.2.2 q hq⟩
      | ok ps =>
        obtain ⟨c2, env3⟩ := ps
        rw [hso] at h
        dsimp only at h
        have hsys2 : env2.sysPrio < 0 := by rw [m_sy, a_sy]; exact hsys
        obtain ⟨s_f, s_fo, s_p, s_sy, s_d, s_fr, _⟩ :=
          swap_on_ok_post _ _ _ _ _ _ _ hsys2 hso
        cases hsw : swap_off false oc.tmpSwapoffOk env3 pr.tmpPath with
        | error pe =>
          rw [hsw] at h
          cases h
          rw [swap_off_err_env _ _ _ _ _ hsw]
          refine ⟨?_, ?_, ?_⟩
          · intro q hq
            rw [s_f]
            exact env2frame.1 q hq
          · intro q hq
            rw [s_fo]
            exact env2frame.2.1 q hq
          · intro q hq
            rw [s_fr q hq]
            exact env2frame.2.2 q hq
        | ok pw =>
          obtain ⟨c3, env4⟩ := pw
          rw [hsw] at h
          cases h

/-- A successful tail (mkswap / set_perms / swap_on on the final path, real
mode) starting from a file of the desired size leaves the final path
settled, whatever the cleanup does to the temp path. -/
theorem presentTail_ok_settled (pr : Params) (oc : CmdOutcomes) (c0 : Bool)
    (env : Env) (reg : Bool) (res : RunResult) (envF : Env)
    (hcm : pr.checkMode = false)
    (hne : ¬pr.path = pr.tmpPath)
    (hsys : env.sysPrio < 0)
    (hsize : lookupF env.files pr.path = some (desiredBytes pr))
    (h : presentTail pr oc c0 env reg = Outcome.ok res envF) :
    Settled pr envF ∧ envF.dirOk = env.dirOk ∧ envF.sysPrio = env.sysPrio := by
  unfold presentTail at h
  rw [hcm] at h
  cases hmk : mkswap false oc.finalMkswapOk env pr.path with
  | error e => rw [hmk] at h; cases h
  | ok pm =>
    obtain ⟨c1, env1⟩ := pm
    rw [hmk] at h
    dsimp only at h
    obtain ⟨m_f, m_s, m_p, m_sy, m_d, m_cf, m_cfq, _⟩ :=
      mkswap_ok_post _ _ _ _ _ hmk
    cases hsp : set_perms false env1 pr.path with
    | mk c2 env2 =>
      rw [hsp] at h
      dsimp only at h
      obtain ⟨p_f, p_fo, p_s, p_sy, p_d, p_cp, p_cq, _⟩ :=
        set_perms_post _ _ _ _ hsp
      cases hso : swap_on false oc.finalSwapoffOk oc.finalSwaponOk env2 pr.path
          pr.priority with
      | error e => rw [hso] at h; cases h
      | ok ps =>
        obtain ⟨c3, env3⟩ := ps
        rw [hso] at h
        dsimp only at h
        have hsys2 : env2.sysPrio < 0 := by rw [p_sy, m_sy]; exact hsys
        obtain ⟨s_f, s_fo, s_p, s_sy, s_d, s_fr, c, s_lk, s_c1, s_c2⟩ :=
          swap_on_ok_post _ _ _ _ _ _ _ hsys2 hso
        cases h
        obtain ⟨d_lk, d_fo, d_s, d_p, d_sy, d_d⟩ :=
          doCleanup_post reg env3 pr.tmpPath pr.path hne
        refine ⟨⟨?_, ?_, ?_, c, ?_, s_c1, s_c2⟩, ?_, ?_⟩
        · rw [d_lk, s_f, p_f, m_f, hsize]
        · rw [d_fo, s_fo, p_fo, m_cf]
        · rw [d_p, s_p, p_cp]
        · rw [d_s, s_lk]
        · rw [d_d, s_d, p_d, m_d]
        · rw [d_sy, s_sy, p_sy, m_sy]

/-- On an environment where the final path is already settled, a real-mode
present run does nothing and reports changed false. -/
theorem settled_present_noop (pr : Params) (oc : CmdOutcomes) (env : Env)
    (hcm : pr.checkMode = false)
    (hdir : env.dirOk = true)
    (hs : Settled pr env) :
    ∃ res, present pr oc env = Outcome.ok res env ∧ res.changed = false := by
  obtain ⟨hsize, hfmt, hperm, c, hlk, hc1, hc2⟩ := hs
  have hex : fexists env pr.path = true := by rw [fexists, hsize]; rfl
  have hmk : mkswap false oc.finalMkswapOk env pr.path =
      Except.ok (false, env) := by
    unfold mkswap
    have hsf : statusIsFormatted env pr.path = true := by
      rw [statusIsFormatted, hex, hfmt]; rfl
    rw [hsf]
    rfl
  have hsp : set_perms false env pr.path = (false, env) := by
    unfold set_perms
    rw [hperm]
    rfl
  have hon : statusIsOn env pr.path = true := by
    rw [statusIsOn, hex, hlk]; rfl
  have hpi : statusPriorityInt env pr.path = some c := by
    rw [statusPriorityInt, if_pos hex, hlk]
  have hcond : swapOnCond env pr.path pr.priority = false := by
    unfold swapOnCond
    rw [hon, hpi]
    by_cases hp : 0 ≤ pr.priority
    · simp [hc1 hp]
    · have hcneg : c < 0 := hc2 (not_le.mp hp)
      simp [hp, not_le.mpr hcneg]
  have hso : swap_on false oc.finalSwapoffOk oc.finalSwaponOk env pr.path
      pr.priority = Except.ok (false, env) := by
    unfold swap_on
    rw [hcond]
    rfl
  have hneed : (!(fexists env pr.path) ||
      !(statusSize env pr.path == some (desiredBytes pr))) = false := by
    rw [hex, statusSize, hsize]
    simp
  refine ⟨{ changed := false, path := pr.path, size := statusSize env pr.path,
            priority := statusPriorityRaw env pr.path }, ?_, rfl⟩
  unfold present
  rw [hdir, hneed]
  simp only [Bool.not_true, Bool.false_eq_true, if_false]
  unfold presentTail
  rw [hcm, hmk]
  dsimp only
  rw [hsp]
  dsimp only
  rw [hso]
  rfl

/-- Every successful real-mode present run leaves the final path settled. -/
theorem present_ok_settled (pr : Params) (oc : CmdOutcomes) (env : Env)
    (res : RunResult) (envF : Env)
    (hcm : pr.checkMode = false)
    (hne : ¬pr.path = pr.tmpPath)
    (hsys : env.sysPrio < 0)
    (h : present pr oc env = Outcome.ok res envF) :
    Settled pr envF ∧ envF.dirOk = true ∧ envF.sysPrio = env.sysPrio := by
  unfold present at h
  by_cases hdir : env.dirOk = true
  case neg =>
    have hdf : env.dirOk = false := by
      cases hv : env.dirOk
      · rfl
      · exact absurd hv hdir
    rw [hdf] at h
    simp only [Bool.not_false, eq_self_iff_true, if_true] at h
    cases h
  case pos =>
    rw [hdir] at h
    simp only [Bool.not_true, Bool.false_eq_true, if_false] at h
    by_cases hneed : (!(fexists env pr.path) ||
        !(statusSize env pr.path == some (desiredBytes pr))) = true
    · rw [if_pos hneed, hcm] at h
      simp only [Bool.not_false, eq_self_iff_true, if_true] at h
      by_cases hms : oc.mkstempOk = true
      case neg =>
        have hmf : oc.mkstempOk = false := by
          cases hv : oc.mkstempOk
          · rfl
          · exact absurd hv hms
        rw [hmf] at h
        simp only [Bool.not_false, eq_self_iff_true, if_true] at h
        cases h
      case pos =>
        rw [hms] at h
        simp only [Bool.not_true, Bool.false_eq_true, if_false] at h
        cases hst : stagedValidate pr oc (setFileSize env pr.tmpPath 0) with
        | error e =>
          rw [hst] at h
          cases h
        | ok envS =>
          rw [hst] at h
          dsimp only at h
          have hsysT : (setFileSize env pr.tmpPath 0).sysPrio < 0 := by
            rw [(setFileSize_frame env pr.tmpPath 0).2.2.2.1]
            exact hsys
          obtain ⟨g_tmp, g_fmt, g_p, g_sy, g_d, g_fq, g_foq, g_sq⟩ :=
            stagedValidate_ok_post pr oc _ envS hsysT hst
          cases hsw : swap_off false oc.finalSwapoffOk envS pr.path with
          | error e =>
            rw [hsw] at h
            cases h
          | ok pw =>
            obtain ⟨c5, env5⟩ := pw
            rw [hsw] at h
            dsimp only at h
            obtain ⟨w_f, w_fo, w_p, w_sy, w_d, w_or⟩ :=
              swap_off_ok_post _ _ _ _ _ hsw
            have h5tmp : lookupF env5.files pr.tmpPath =
                some (desiredBytes pr) := by
              rw [w_f]; exact g_tmp
            have hmv := atomicMove_post env5 pr.tmpPath pr.path
              (desiredBytes pr) h5tmp hne
            have hsys5 : (atomicMove env5 pr.tmpPath pr.path).sysPrio < 0 := by
              rw [hmv.2.2.2.2.2.1, w_sy, g_sy,
                (setFileSize_frame env pr.tmpPath 0).2.2.2.1]
              exact hsys
            obtain ⟨hset, hdF, hsyF⟩ := presentTail_ok_settled pr oc true _
              true res envF hcm hne hsys5 hmv.1 h
            refine ⟨hset, ?_, ?_⟩
            · rw [hdF, hmv.2.2.2.2.2.2, w_d, g_d,
                (setFileSize_frame env pr.tmpPath 0).2.2.2.2]
              exact hdir
            · rw [hsyF, hmv.2.2.2.2.2.1, w_sy, g_sy,
                (setFileSize_frame env pr.tmpPath 0).2.2.2.1]
    · have hnf : (!(fexists env pr.path) ||
          !(statusSize env pr.path == some (desiredBytes pr))) = false := by
        cases hv : (!(fexists env pr.path) ||
            !(statusSize env pr.path == some (desiredBytes pr)))
        · rfl
        · exact absurd hv hneed
      rw [hnf] at h
      simp only [Bool.false_eq_true, if_false] at h
      have hb : (statusSize env pr.path == some (desiredBytes pr)) = true := by
        have h2 := (Bool.or_eq_false_iff.mp hnf).2
        cases hv : (statusSize env pr.path == some (desiredBytes pr))
        · rw [hv] at h2
          cases h2
        · rfl
      have hsize : lookupF env.files pr.path = some (desiredBytes pr) := by
        rw [← statusSize]
        exact eq_of_beq hb
      obtain ⟨hset, hdF, hsyF⟩ := presentTail_ok_settled pr oc false env false
        res envF hcm hne hsys hsize h
      exact ⟨hset, by rw [hdF]; exact hdir, hsyF⟩

/-- C5: in a static environment, running the present reconciliation twice
in real mode with the same desired state yields changed true at most on the
first run: whatever the first successful run reports, the second run on the
resulting environment is a no-op reporting changed false. -/
theorem c5_present_idempotent (pr : Params) (oc oc2 : CmdOutcomes) (env : Env)
    (res : RunResult) (env1 : Env)
    (hcm : pr.checkMode = false)
    (hne : ¬pr.path = pr.tmpPath)
    (hsys : env.sysPrio < 0)
    (h : present pr oc env = Outcome.ok res env1) :
    ∃ res2, present pr oc2 env1 = Outcome.ok res2 env1 ∧
      res2.changed = false := by
  obtain ⟨hset, hdF, hsyF⟩ := present_ok_settled pr oc env res env1 hcm hne hsys h
  exact settled_present_noop pr oc2 env1 hcm hdF hset

/-- Witness for C5: a concrete creation run from an empty environment,
followed by a second run on its result, which reports changed false. -/
theorem c5_idempotence_witness :
    ∃ res2, present
      { path := "/s", tmpPath := "/t", sizeInMib := 1, priority := -1,
        fs := none, kernel := [6, 1], createCmd := none, checkMode := false }
      { mkstempOk := true, chattrOk := true, createOk := true,
        createdSize := 1048576, createErr := "dd failed", tmpMkswapOk := true,
        tmpSwaponOk := true, tmpSwapoffOk := true, finalSwapoffOk := true,
        finalMkswapOk := true, finalSwaponOk := true }
      { files := [("/s", 1048576)], formatted := ["/s"], swaps := [("/s", -2)],
        permsOk := ["/s"], sysPrio := -2, dirOk := true } =
      Outcome.ok res2
        { files := [("/s", 1048576)], formatted := ["/s"],
          swaps := [("/s", -2)], permsOk := ["/s"], sysPrio := -2,
          dirOk := true } ∧
      res2.changed = false := by
  exact c5_present_idempotent
    { path := "/s", tmpPath := "/t", sizeInMib := 1, priority := -1,
      fs := none, kernel := [6, 1], createCmd := none, checkMode := false }
    { mkstempOk := true, chattrOk := true, createOk := true,
      createdSize := 1048576, createErr := "dd failed", tmpMkswapOk := true,
      tmpSwaponOk := true, tmpSwapoffOk := true, finalSwapoffOk := true,
      finalMkswapOk := true, finalSwaponOk := true }
    { mkstempOk := true, chattrOk := true, createOk := true,
      createdSize := 1048576, createErr := "dd failed", tmpMkswapOk := true,
      tmpSwaponOk := true, tmpSwapoffOk := true, finalSwapoffOk := true,
      finalMkswapOk := true, finalSwaponOk := true }
    { files := [], formatted := [], swaps := [], permsOk := [], sysPrio := -2,
      dirOk := true }
    { changed := true, path := "/s", size := some 1048576,
      priority := some "-2" }
    _ rfl (by decide) (by decide) (by decide)

/-! ## Check-mode behaviour -/

theorem mkswap_check (cmdOk : Bool) (env : Env) (p : String) :
    mkswap true cmdOk env p = Except.ok (!(statusIsFormatted env p), env) := by
  unfold mkswap
  by_cases hf : statusIsFormatted env p = true
  · rw [hf]; rfl
  · have hff : statusIsFormatted env p = false := by
      cases hv : statusIsFormatted env p
      · rfl
      · exact absurd hv hf
    rw [hff]; rfl

theorem set_perms_check (env : Env) (p : String) :
    set_perms true env p = (!(containsS env.permsOk p), env) := by
  unfold set_perms
  by_cases hc : containsS env.permsOk p = true
  · rw [hc]; rfl
  · have hcf : containsS env.permsOk p = false := by
      cases hv : containsS env.permsOk p
      · rfl
      · exact absurd hv hc
    rw [hcf]; rfl

theorem swap_off_check (cmdOk : Bool) (env : Env) (p : String) :
    swap_off true cmdOk env p = Except.ok (statusIsOn env p, env) := by
  unfold swap_off
  by_cases ho : statusIsOn env p = true
  · rw [ho]; rfl
  · have hof : statusIsOn env p = false := by
      cases hv : statusIsOn env p
      · rfl
      · exact absurd hv ho
    rw [hof]; rfl

theorem swap_on_check (offOk onOk : Bool) (env : Env) (p : String) (req : Int) :
    swap_on true offOk onOk env p req =
      Except.ok (swapOnCond env p req, env) := by
  unfold swap_on
  by_cases hc : swapOnCond env p req = true
  · rw [hc]
    by_cases hon : statusIsOn env p = true
    · rw [if_pos hon, swap_off_check]
      rfl
    · rw [if_neg hon]
      rfl
  · have hcf : swapOnCond env p req = false := by
      cases hv : swapOnCond env p req
      · rfl
      · exact absurd hv hc
    rw [hcf]
    rfl

/-- A check-mode tail never issues a command, never fails, and computes its
changed flag from the read-only status queries alone, leaving the
environment untouched. -/
theorem presentTail_check (pr : Params) (oc : CmdOutcomes) (c0 : Bool)
    (env : Env) (reg : Bool) (hcm : pr.checkMode = true) :
    presentTail pr oc c0 env reg =
      Outcome.ok
        { changed := ((c0 || !(statusIsFormatted env pr.path)) ||
            !(containsS env.permsOk pr.path)) ||
            swapOnCond env pr.path pr.priority
          path := pr.path
          size := statusSize env pr.path
          priority := statusPriorityRaw env pr.path }
        (doCleanup reg env pr.tmpPath) := by
  unfold presentTail
  rw [hcm, mkswap_check]
  dsimp only
  rw [set_perms_check]
  dsimp only
  rw [swap_on_check]

theorem swapOnCond_congr (env env2 : Env) (p : String) (req : Int)
    (hf : env2.files = env.files) (hs : env2.swaps = env.swaps) :
    swapOnCond env2 p req = swapOnCond env p req := by
  unfold swapOnCond statusIsOn statusPriorityInt fexists
  rw [hf, hs]

theorem swap_on_ok_changed (offOk onOk : Bool) (env : Env) (p : String)
    (req : Int) (c3 : Bool) (env3 : Env)
    (h : swap_on false offOk onOk env p req = Except.ok (c3, env3)) :
    c3 = swapOnCond env p req := by
  unfold swap_on at h
  split at h
  case isTrue hcnd =>
    rw [hcnd]
    by_cases hon : statusIsOn env p = true
    · rw [if_pos hon] at h
      cases hsw : swap_off false offOk env p with
      | error e => rw [hsw] at h; cases h
      | ok pair =>
        obtain ⟨cc, env1⟩ := pair
        rw [hsw] at h
        simp only [Bool.false_eq_true, if_false] at h
        split at h
        · cases h; rfl
        · cases h
    · rw [if_neg hon] at h
      simp only [Bool.false_eq_true, if_false] at h
      split at h
      · cases h; rfl
      · cases h
  case isFalse hcnd =>
    cases h
    cases hv : swapOnCond env p req
    · rfl
    · exact absurd hv hcnd

/-- The changed flag of a successful real-mode tail is determined by the
read-only status queries on the environment it started from. -/
theorem presentTail_ok_changed (pr : Params) (oc : CmdOutcomes) (c0 : Bool)
    (env : Env) (reg : Bool) (res : RunResult) (envF : Env)
    (hcm : pr.checkMode = false)
    (h : presentTail pr oc c0 env reg = Outcome.ok res envF) :
    res.changed = (((c0 || !(statusIsFormatted env pr.path)) ||
      !(containsS env.permsOk pr.path)) ||
      swapOnCond env pr.path pr.priority) := by
  unfold presentTail at h
  rw [hcm] at h
  cases hmk : mkswap false oc.finalMkswapOk env pr.path with
  | error e => rw [hmk] at h; cases h
  | ok pm =>
    obtain ⟨c1, env1⟩ := pm
    rw [hmk] at h
    dsimp only at h
    obtain ⟨m_f, m_s, m_p, _, _, _, _, m_c⟩ := mkswap_ok_post _ _ _ _ _ hmk
    cases hsp : set_perms false env1 pr.path with
    | mk c2 env2 =>
      rw [hsp] at h
      dsimp only at h
      obtain ⟨p_f, _, p_s, _, _, _, _, p_c⟩ := set_perms_post _ _ _ _ hsp
      cases hso : swap_on false oc.finalSwapoffOk oc.finalSwaponOk env2 pr.path
          pr.priority with
      | error e => rw [hso] at h; cases h
      | ok ps =>
        obtain ⟨c3, env3⟩ := ps
        rw [hso] at h
        dsimp only at h
        have hc3 := swap_on_ok_changed _ _ _ _ _ _ _ hso
        have hcg : swapOnCond env2 pr.path pr.priority =
            swapOnCond env pr.path pr.priority := by
          apply swapOnCond_congr
          · rw [p_f, m_f]
          · rw [p_s, m_s]
        cases h
        dsimp only
        rw [m_c, p_c, m_p, hc3, hcg]

/-- A check-mode present run on an existing directory always succeeds,
leaves the environment untouched, and computes its changed flag purely
from the read-only status queries. -/
theorem present_check_eval (pr : Params) (oc : CmdOutcomes) (env : Env)
    (hcm : pr.checkMode = true) (hdir : env.dirOk = true) :
    present pr oc env =
      Outcome.ok
        { changed := if (!(fexists env pr.path) ||
              !(statusSize env pr.path == some (desiredBytes pr))) = true
            then true
            else (((false || !(statusIsFormatted env pr.path)) ||
              !(containsS env.permsOk pr.path)) ||
              swapOnCond env pr.path pr.priority)
          path := pr.path
          size := statusSize env pr.path
          priority := statusPriorityRaw env pr.path } env := by
  unfold present
  rw [hdir]
  simp only [Bool.not_true, Bool.false_eq_true, if_false]
  by_cases hneed : (!(fexists env pr.path) ||
      !(statusSize env pr.path == some (desiredBytes pr))) = true
  · rw [if_pos hneed, if_pos hneed, hcm]
    simp only [Bool.not_true, Bool.false_eq_true, if_false]
    rw [presentTail_check pr oc true env false hcm]
    simp [doCleanup]
  · rw [if_neg hneed, if_neg hneed]
    rw [presentTail_check pr oc false env false hcm]
    simp [doCleanup]

/-- A successful real-mode present run that had to restage the file always
reports changed true. -/
theorem present_ok_changed_true (pr : Params) (oc : CmdOutcomes) (env : Env)
    (res : RunResult) (env1 : Env)
    (hcm : pr.checkMode = false)
    (hneed : (!(fexists env pr.path) ||
      !(statusSize env pr.path == some (desiredBytes pr))) = true)
    (hdir : env.dirOk = true)
    (h : present pr oc env = Outcome.ok res env1) :
    res.changed = true := by
  unfold present at h
  rw [hdir] at h
  simp only [Bool.not_true, Bool.false_eq_true, if_false] at h
  rw [if_pos hneed, hcm] at h
  simp only [Bool.not_false, eq_self_iff_true, if_true] at h
  by_cases hms : oc.mkstempOk = true
  · rw [hms] at h
    simp only [Bool.not_true, Bool.false_eq_true, if_false] at h
    cases hst : stagedValidate pr oc (setFileSize env pr.tmpPath 0) with
    | error e => rw [hst] at h; cases h
    | ok envS =>
      rw [hst] at h
      dsimp only at h
      cases hsw : swap_off false oc.finalSwapoffOk envS pr.path with
      | error e => rw [hsw] at h; cases h
      | ok pw =>
        obtain ⟨c5, env5⟩ := pw
        rw [hsw] at h
        dsimp only at h
        have hch := presentTail_ok_changed pr oc true _ true res env1 hcm h
        rw [hch]
        simp
  · have hmf : oc.mkstempOk = false := by
      cases hv : oc.mkstempOk
      · rfl
      · exact absurd hv hms
    rw [hmf] at h
    simp only [Bool.not_false, eq_self_iff_true, if_true] at h
    cases h

/-- C6: in check (dry-run) mode no mutating call is issued — the returned
environment is exactly the input environment and every changed
determination comes from the read-only status queries — and for a fixed
environment the changed flag predicted by the dry run equals the changed
flag a subsequent successful real run produces. -/
theorem c6_dry_run_fidelity (pr : Params) (oc : CmdOutcomes) (env : Env)
    (res : RunResult) (env1 : Env)
    (hcm : pr.checkMode = false)
    (h : present pr oc env = Outcome.ok res env1) :
    ∃ resC, present { pr with checkMode := true } oc env =
      Outcome.ok resC env ∧ resC.changed = res.changed := by
  by_cases hdir : env.dirOk = true
  case neg =>
    exfalso
    have hdf : env.dirOk = false := by
      cases hv : env.dirOk
      · rfl
      · exact absurd hv hdir
    unfold present at h
    rw [hdf] at h
    simp only [Bool.not_false, eq_self_iff_true, if_true] at h
    cases h
  case pos =>
    have hchk := present_check_eval { pr with checkMode := true } oc env rfl hdir
    refine ⟨_, hchk, ?_⟩
    dsimp only
    have hdb : desiredBytes { pr with checkMode := true } = desiredBytes pr := rfl
    rw [hdb]
    by_cases hneed : (!(fexists env pr.path) ||
        !(statusSize env pr.path == some (desiredBytes pr))) = true
    · rw [if_pos hneed]
      exact (present_ok_changed_true pr oc env res env1 hcm hneed hdir h).symm
    · rw [if_neg hneed]
      have hnf : (!(fexists env pr.path) ||
          !(statusSize env pr.path == some (desiredBytes pr))) = false := by
        cases hv : (!(fexists env pr.path) ||
            !(statusSize env pr.path == some (desiredBytes pr)))
        · rfl
        · exact absurd hv hneed
      unfold present at h
      rw [hdir] at h
      simp only [Bool.not_true, Bool.false_eq_true, if_false] at h
      rw [hnf] at h
      simp only [Bool.false_eq_true, if_false] at h
      exact (presentTail_ok_changed pr oc false env false res env1 hcm h).symm

/-- After a successful tail with a registered staged file, the staged file
is no longer on disk (it was renamed away; the exit-time cleanup is a
no-op). -/
theorem presentTail_ok_tmp_gone (pr : Params) (oc : CmdOutcomes) (c0 : Bool)
    (env : Env) (res : RunResult) (envF : Env)
    (h : presentTail pr oc c0 env true = Outcome.ok res envF) :
    lookupF envF.files pr.tmpPath = none := by
  unfold presentTail at h
  cases hmk : mkswap pr.checkMode oc.finalMkswapOk env pr.path with
  | error e => rw [hmk] at h; cases h
  | ok pm =>
    obtain ⟨c1, env1⟩ := pm
    rw [hmk] at h
    dsimp only at h
    cases hsp : set_perms pr.checkMode env1 pr.path with
    | mk c2 env2 =>
      rw [hsp] at h
      dsimp only at h
      cases hso : swap_on pr.checkMode oc.finalSwapoffOk oc.finalSwaponOk env2
          pr.path pr.priority with
      | error e => rw [hso] at h; cases h
      | ok ps =>
        obtain ⟨c3, env3⟩ := ps
        rw [hso] at h
        dsimp only at h
        cases h
        exact cleanupFile_removes env3 pr.tmpPath

/-- C1: failure atomicity of `_present`.  If any step of the staged
pipeline (allocate / mkswap / swap_on / swap_off on the temp file) fails —
for example a short or zero-length allocation — the run fails, the
pre-existing final-path file is untouched (same size entry, same swap
signature, same swap-table state) and no staged temp file remains on disk;
and whenever a restaging run succeeds, the staged pipeline completed in
full before the single atomic rename, and no staged file survives. -/
theorem c1_staged_failure_atomicity (pr : Params) (oc : CmdOutcomes)
    (env : Env)
    (hcm : pr.checkMode = false)
    (hne : ¬pr.path = pr.tmpPath)
    (hsys : env.sysPrio < 0)
    (hdir : env.dirOk = true)
    (hneed : (!(fexists env pr.path) ||
      !(statusSize env pr.path == some (desiredBytes pr))) = true)
    (hms : oc.mkstempOk = true) :
    (∀ e envE, stagedValidate pr oc (setFileSize env pr.tmpPath 0) =
        Except.error (e, envE) →
      present pr oc env =
        Outcome.failed ("Swap file creation failed: " ++ e)
          (cleanupFile envE pr.tmpPath) ∧
      lookupF (cleanupFile envE pr.tmpPath).files pr.path =
        lookupF env.files pr.path ∧
      containsS (cleanupFile envE pr.tmpPath).formatted pr.path =
        containsS env.formatted pr.path ∧
      swapLookup (cleanupFile envE pr.tmpPath).swaps pr.path =
        swapLookup env.swaps pr.path ∧
      lookupF (cleanupFile envE pr.tmpPath).files pr.tmpPath = none) ∧
    (∀ res envF, present pr oc env = Outcome.ok res envF →
      (∃ envS, stagedValidate pr oc (setFileSize env pr.tmpPath 0) =
        Except.ok envS) ∧
      lookupF envF.files pr.tmpPath = none) := by
  have hsysT : (setFileSize env pr.tmpPath 0).sysPrio < 0 := by
    rw [(setFileSize_frame env pr.tmpPath 0).2.2.2.1]
    exact hsys
  constructor
  · intro e envE hst
    obtain ⟨ff, fo, sw⟩ := stagedValidate_err_frame pr oc _ e envE hsysT hst
    obtain ⟨c_lk, c_fo, c_s, c_p, c_sy, c_d⟩ :=
      cleanupFile_frame envE pr.tmpPath pr.path hne
    refine ⟨?_, ?_, ?_, ?_, cleanupFile_removes envE pr.tmpPath⟩
    · unfold present
      rw [hdir]
      simp only [Bool.not_true, Bool.false_eq_true, if_false]
      rw [if_pos hneed, hcm]
      simp only [Bool.not_false, eq_self_iff_true, if_true]
      rw [hms]
      simp only [Bool.not_true, Bool.false_eq_true, if_false]
      rw [hst]
    · rw [c_lk, ff pr.path hne]
      exact lookupF_set_ne env pr.path pr.tmpPath 0 (fun hc => hne hc.symm)
    · rw [c_fo, fo pr.path hne, (setFileSize_frame env pr.tmpPath 0).1]
    · rw [c_s, sw pr.path hne, (setFileSize_frame env pr.tmpPath 0).2.1]
  · intro res envF hok
    unfold present at hok
    rw [hdir] at hok
    simp only [Bool.not_true, Bool.false_eq_true, if_false] at hok
    rw [if_pos hneed, hcm] at hok
    simp only [Bool.not_false, eq_self_iff_true, if_true] at hok
    rw [hms] at hok
    simp only [Bool.not_true, Bool.false_eq_true, if_false] at hok
    cases hst : stagedValidate pr oc (setFileSize env pr.tmpPath 0) with
    | error e => rw [hst] at hok; cases hok
    | ok envS =>
      refine ⟨⟨envS, rfl⟩, ?_⟩
      rw [hst] at hok
      dsimp only at hok
      cases hsw : swap_off false oc.finalSwapoffOk envS pr.path with
      | error e => rw [hsw] at hok; cases hok
      | ok pw =>
        obtain ⟨c5, env5⟩ := pw
        rw [hsw] at hok
        dsimp only at hok
        exact presentTail_ok_tmp_gone pr oc true _ res envF hok

/-- Witness for C1: from an empty directory, a creation command that
produces a zero-length file (out of space) makes the run fail with the
capacity error, leaves the final path still absent and the staged temp
file removed. -/
theorem c1_atomicity_witness :
    present
      { path := "/s", tmpPath := "/t", sizeInMib := 1, priority := -1,
        fs := none, kernel := [6, 1], createCmd := none, checkMode := false }
      { mkstempOk := true, chattrOk := true, createOk := true,
        createdSize := 0, createErr := "dd failed", tmpMkswapOk := true,
        tmpSwaponOk := true, tmpSwapoffOk := true, finalSwapoffOk := true,
        finalMkswapOk := true, finalSwaponOk := true }
      { files := [], formatted := [], swaps := [], permsOk := [],
        sysPrio := -2, dirOk := true } =
      Outcome.failed ("Swap file creation failed: " ++ sizeErrMsg)
        (cleanupFile
          { files := [("/t", 0)], formatted := [], swaps := [], permsOk := [],
            sysPrio := -2, dirOk := true } "/t") ∧
    lookupF (cleanupFile
      { files := [("/t", 0)], formatted := [], swaps := [], permsOk := [],
        sysPrio := -2, dirOk := true } "/t").files "/t" = none := by
  have h := (c1_staged_failure_atomicity
    { path := "/s", tmpPath := "/t", sizeInMib := 1, priority := -1,
      fs := none, kernel := [6, 1], createCmd := none, checkMode := false }
    { mkstempOk := true, chattrOk := true, createOk := true,
      createdSize := 0, createErr := "dd failed", tmpMkswapOk := true,
      tmpSwaponOk := true, tmpSwapoffOk := true, finalSwapoffOk := true,
      finalMkswapOk := true, finalSwaponOk := true }
    { files := [], formatted := [], swaps := [], permsOk := [],
      sysPrio := -2, dirOk := true }
    rfl (by decide) (by decide) rfl (by decide) rfl).1 sizeErrMsg
    { files := [("/t", 0)], formatted := [], swaps := [], permsOk := [],
      sysPrio := -2, dirOk := true } rfl
  exact ⟨h.1, h.2.2.2.2⟩

/-- Witness for C6: a concrete creation run from an empty environment
reports changed true, and the corresponding dry run predicts the same
changed value while leaving the environment untouched. -/
theorem c6_fidelity_witness :
    ∃ resC, present
      { path := "/s", tmpPath := "/t", sizeInMib := 1, priority := -1,
        fs := none, kernel := [6, 1], createCmd := none, checkMode := true }
      { mkstempOk := true, chattrOk := true, createOk := true,
        createdSize := 1048576, createErr := "dd failed", tmpMkswapOk := true,
        tmpSwaponOk := true, tmpSwapoffOk := true, finalSwapoffOk := true,
        finalMkswapOk := true, finalSwaponOk := true }
      { files := [], formatted := [], swaps := [], permsOk := [],
        sysPrio := -2, dirOk := true } =
      Outcome.ok resC
        { files := [], formatted := [], swaps := [], permsOk := [],
          sysPrio := -2, dirOk := true } ∧
      resC.changed = true := by
  exact c6_dry_run_fidelity
    { path := "/s", tmpPath := "/t", sizeInMib := 1, priority := -1,
      fs := none, kernel := [6, 1], createCmd := none, checkMode := false }
    { mkstempOk := true, chattrOk := true, createOk := true,
      createdSize := 1048576, createErr := "dd failed", tmpMkswapOk := true,
      tmpSwaponOk := true, tmpSwapoffOk := true, finalSwapoffOk := true,
      finalMkswapOk := true, finalSwaponOk := true }
    { files := [], formatted := [], swaps := [], permsOk := [],
      sysPrio := -2, dirOk := true }
    { changed := true, path := "/s", size := some 1048576,
      priority := some "-2" }
    { files := [("/s", 1048576)], formatted := ["/s"], swaps := [("/s", -2)],
      permsOk := ["/s"], sysPrio := -2, dirOk := true }
    rfl (by decide)
